import Mathlib

/-!
Verification development for the response-generation orchestrator of the
bubbleAI repository (an autonomous conversational agent).  The TypeScript
source (`runAutonomousAgent` and its helpers `streamOpenRouter`,
`generateContentStreamWithRetry`) is shallowly embedded below: external
collaborators (semantic router, research service, image generation, canvas
agent, memory, the two model providers and the streaming sink) are modelled
as an explicit environment, the cooperative `AbortSignal` as a monotone
boolean stream consulted at exactly the program points where the source
reads `signal?.aborted`, and the JavaScript regular expressions of the tag
scanner as a small backtracking matcher with JS semantics (leftmost match,
alternation in order, greedy/lazy quantifiers, `.` not matching line
terminators).
-/

namespace Bubble

/-- JS line terminators: characters not matched by `.` in a regex without
the `s` flag (`\n`, `\r`, U+2028, U+2029). -/
def isLineTerm (c : Char) : Bool :=
  c = '\n' || c = '\r' || c = Char.ofNat 0x2028 || c = Char.ofNat 0x2029

/-- Character class of `.` in the source's regexes (anything but a line
terminator). -/
def reDot (c : Char) : Bool := !isLineTerm c

/-- JS `\s` class, restricted to the whitespace characters that occur in
practice (space, tab, line feeds, vertical tab, form feed, NBSP). -/
def jsWhite (c : Char) : Bool :=
  c = ' ' || c = '\t' || c = '\n' || c = '\r' || c = '\x0b' || c = '\x0c' ||
  c = Char.ofNat 0xa0

/-- JS `String.prototype.trim` (with the whitespace set of `jsWhite`). -/
def jsTrim (s : String) : String :=
  String.mk (((s.data.dropWhile jsWhite).reverse.dropWhile jsWhite).reverse)

/-- JS `String.prototype.startsWith`. -/
def strStarts (s pre : String) : Bool := pre.data.isPrefixOf s.data

/-- JS `String.prototype.split` with a single-character separator. -/
def splitChar (sep : Char) : List Char → List (List Char)
  | [] => [[]]
  | c :: cs =>
    let r := splitChar sep cs
    if c = sep then [] :: r
    else
      match r with
      | [] => [[c]]
      | h :: t => (c :: h) :: t

/-- `needle` occurs as a contiguous substring of `hay` (JS
`String.prototype.includes`). -/
def containsSub (hay needle : String) : Bool :=
  go needle.data hay.data
where
  go (n : List Char) : List Char → Bool
    | [] => n.isPrefixOf []
    | c :: cs => n.isPrefixOf (c :: cs) || go n cs

/-- JS `String.prototype.replace` with a plain-string pattern replaces only
the first occurrence. -/
def replaceFirst (s pat repl : String) : String :=
  if pat.data = [] then s else String.mk (go s.data)
where
  go : List Char → List Char
    | [] => []
    | c :: cs =>
      if pat.data.isPrefixOf (c :: cs) then
        repl.data ++ (c :: cs).drop pat.data.length
      else c :: go cs

/-! ### A miniature regex engine with JavaScript semantics

Only the connectives appearing in the source's regexes are supported.  A
match attempt at a position yields the list of possible
`(consumed chars, capture of group 1)` pairs in JS backtracking preference
order; the overall match is the first success at the leftmost position
(`reFind`).  All quantifiers in the source range over single-character
classes, so the engine needs no general star. -/

inductive RE where
  /-- literal, case-sensitive -/
  | lit  : List Char → RE
  /-- literal, case-insensitive (for a regex with the `i` flag) -/
  | liti : List Char → RE
  /-- single character from a class -/
  | cls  : (Char → Bool) → RE
  | seq  : RE → RE → RE
  /-- alternation; the left branch is preferred, as in JS -/
  | alt  : RE → RE → RE
  /-- greedy `C*` over a character class -/
  | starG : (Char → Bool) → RE
  /-- lazy `C*?` over a character class -/
  | starL : (Char → Bool) → RE
  /-- greedy `C+` over a character class -/
  | plusG : (Char → Bool) → RE
  /-- exactly `n` characters from a class (`C{n}`) -/
  | repN : (Char → Bool) → Nat → RE
  /-- capturing group 1 -/
  | grp  : RE → RE

/-- Longest prefix of `s` of characters in class `p`. -/
def takeClass (p : Char → Bool) : List Char → List Char
  | [] => []
  | c :: cs => if p c then c :: takeClass p cs else []

/-- All prefixes of `l`, longest first (greedy backtracking order). -/
def prefixesDesc (l : List Char) : List (List Char) :=
  ((List.range (l.length + 1)).reverse).map (fun n => l.take n)

/-- All prefixes of `l`, shortest first (lazy backtracking order). -/
def prefixesAsc (l : List Char) : List (List Char) :=
  (List.range (l.length + 1)).map (fun n => l.take n)

/-- All ways `r` can match a prefix of `s`, in JS preference order.  Each
element is the consumed prefix paired with the contents of capturing
group 1, when the match went through one. -/
def reMatches : RE → List Char → List (List Char × Option (List Char))
  | .lit t, s => if t.isPrefixOf s then [(t, none)] else []
  | .liti t, s =>
    if s.length < t.length then []
    else
      let s' := s.take t.length
      if s'.map Char.toLower = t.map Char.toLower then [(s', none)] else []
  | .cls p, s =>
    match s with
    | [] => []
    | c :: _ => if p c then [([c], none)] else []
  | .seq a b, s =>
    (reMatches a s).flatMap (fun ca =>
      (reMatches b (s.drop ca.1.length)).map (fun cb =>
        (ca.1 ++ cb.1, ca.2 <|> cb.2)))
  | .alt a b, s => reMatches a s ++ reMatches b s
  | .starG p, s => (prefixesDesc (takeClass p s)).map (fun r => (r, none))
  | .starL p, s => (prefixesAsc (takeClass p s)).map (fun r => (r, none))
  | .plusG p, s =>
    ((prefixesDesc (takeClass p s)).filter (fun r => r.length ≠ 0)).map
      (fun r => (r, none))
  | .repN p n, s =>
    let r := s.take n
    if r.length = n && r.all p then [(r, none)] else []
  | .grp r, s => (reMatches r s).map (fun c => (c.1, some c.1))

/-- Leftmost match of `r` in `s` (JS `String.prototype.match` without the
`g` flag): try every start position from the left, and at each position
take the first alternative in preference order. -/
def reFind (r : RE) : List Char → Option (List Char × Option (List Char))
  | [] => (reMatches r []).head?
  | c :: cs =>
    match (reMatches r (c :: cs)).head? with
    | some m => some m
    | none => reFind r cs

/-- Result of a successful JS `match`: the full matched text (`m[0]`) and
capturing group 1 (`m[1]`, absent when the regex has no group). -/
structure RMatch where
  full : String
  payload : Option String
deriving DecidableEq, Repr

/-- JS `s.match(r)` (first match only). -/
def jsMatch (r : RE) (s : String) : Option RMatch :=
  (reFind r s.data).map (fun m => ⟨String.mk m.1, m.2.map String.mk⟩)

/-! ### The source's regular expressions -/

/-- `/<TAG>(.*?)<\/TAG>/` — the closed-tag directive pattern used for
SEARCH, DEEP, THINK, IMAGE, PROJECT, CANVAS and STUDY
(src/unnamed/part_002 lines 527–533). -/
def tagRE (tag : String) : RE :=
  .seq (.lit ("<" ++ tag ++ ">").data)
    (.seq (.grp (.starL reDot)) (.lit ("</" ++ tag ++ ">").data))

/-- `/<SEARCH>deep\s+(.*?)<\/SEARCH>/i` — the second alternative of the
deep-search matcher (line 528). -/
def deepSearchRE : RE :=
  .seq (.liti "<SEARCH>deep".data)
    (.seq (.plusG jsWhite) (.seq (.grp (.starL reDot)) (.liti "</SEARCH>".data)))

/-- `/<THINK>/` — the bare unterminated THINK fallback (line 529). -/
def bareThinkRE : RE := .lit "<THINK>".data

/-- Character class `[^"&?\/\s]` of the YouTube id patterns. -/
def idChar (c : Char) : Bool :=
  !(c = '"' || c = '&' || c = '?' || c = '/' || jsWhite c)

/-- `/youtube\.com\/shorts\/([^"&?\/\s]{11})/` (line 244). -/
def youtubeShortsRE : RE :=
  .seq (.lit "youtube.com/shorts/".data) (.grp (.repN idChar 11))

/-- `[^\/]+\/.+\/` — first inner branch of the main YouTube pattern. -/
def ytBranchA : RE :=
  .seq (.plusG (fun c => c ≠ '/'))
    (.seq (.lit "/".data) (.seq (.plusG reDot) (.lit "/".data)))

/-- `(?:v|e(?:mbed)?)\/` — second inner branch. -/
def ytBranchB : RE :=
  .seq (.alt (.lit "v".data) (.seq (.lit "e".data) (.alt (.lit "mbed".data) (.lit []))))
    (.lit "/".data)

/-- `.*[?&]v=` — third inner branch. -/
def ytBranchC : RE :=
  .seq (.starG reDot) (.seq (.cls (fun c => c = '?' || c = '&')) (.lit "v=".data))

/-- `/(?:youtube\.com\/(?:[^\/]+\/.+\/|(?:v|e(?:mbed)?)\/|.*[?&]v=)|youtu\.be\/)([^"&?\/\s]{11})/`
(line 243). -/
def youtubeRE : RE :=
  .seq
    (.alt (.seq (.lit "youtube.com/".data) (.alt ytBranchA (.alt ytBranchB ytBranchC)))
      (.lit "youtu.be/".data))
    (.grp (.repN idChar 11))

/-! ### The tag scanner (part_002 lines 527–541) -/

/-- The routing actions of the semantic router consumed by the
orchestrator's `switch`. -/
inductive RouterAction where
  | SIMPLE
  | SEARCH
  | DEEP_SEARCH
  | THINK
  | IMAGE
  | PROJECT
  | CANVAS
  | STUDY
deriving DecidableEq, Repr

/-- Outcome of the directive scan: the reassigned `(currentAction,
currentPrompt)` pair, plus the `routing.parameters` rewrite performed by
the IMAGE branch (line 538). -/
structure ScanResult where
  action : RouterAction
  prompt : String
  imageParams : Option String
deriving DecidableEq, Repr

/-- `deepMatch` (line 528): a closed `<DEEP>` tag, or else a `<SEARCH>`
tag whose payload starts with `deep` plus whitespace, case-insensitively. -/
def deepMatch (g : String) : Option RMatch :=
  (jsMatch (tagRE "DEEP") g).orElse (fun _ => jsMatch deepSearchRE g)

/-- `thinkMatch` (line 529): a closed `<THINK>` tag, or else a bare
`<THINK>`. -/
def thinkMatch (g : String) : Option RMatch :=
  (jsMatch (tagRE "THINK") g).orElse (fun _ => jsMatch bareThinkRE g)

/-- The directive scan and dispatch performed after a SIMPLE stream ends
(lines 527–541).  `generatedThisLoop` is the text produced by the current
loop iteration; `prompt` is the orchestrator's `prompt` variable, used as
fallback payload in the bare-`<THINK>` case (line 537).  Dispatch order in
the source: deep, search, think, image, project, canvas, study. -/
def scanDirectives (generatedThisLoop prompt : String) : Option ScanResult :=
  let searchM := jsMatch (tagRE "SEARCH") generatedThisLoop
  let deepM := deepMatch generatedThisLoop
  let thinkM := thinkMatch generatedThisLoop
  let imageM := jsMatch (tagRE "IMAGE") generatedThisLoop
  let projectM := jsMatch (tagRE "PROJECT") generatedThisLoop
  let canvasM := jsMatch (tagRE "CANVAS") generatedThisLoop
  let studyM := jsMatch (tagRE "STUDY") generatedThisLoop
  match deepM with
  | some m => some ⟨.DEEP_SEARCH, m.payload.getD "", none⟩
  | none =>
  match searchM with
  | some m => some ⟨.SEARCH, m.payload.getD "", none⟩
  | none =>
  match thinkM with
  | some m =>
    -- `thinkMatch[1] ? thinkMatch[1].trim() : prompt`: an absent or empty
    -- capture is falsy in JS, so both fall back to `prompt`.
    some ⟨.THINK,
      (match m.payload with
       | some p => if p = "" then prompt else jsTrim p
       | none => prompt), none⟩
  | none =>
  match imageM with
  | some m => some ⟨.IMAGE, m.payload.getD "", some (m.payload.getD "")⟩
  | none =>
  match projectM with
  | some m => some ⟨.PROJECT, m.payload.getD "", none⟩
  | none =>
  match canvasM with
  | some m => some ⟨.CANVAS, m.payload.getD "", none⟩
  | none =>
  match studyM with
  | some m => some ⟨.STUDY, m.payload.getD "", none⟩
  | none => none

/-! ### The retry controller (part_002 lines 97–127) -/

/-- A JavaScript `Error`-like value: `name` distinguishes `AbortError`,
`status` carries an HTTP status when the provider error has one. -/
structure JsError where
  name : String
  message : String
  status : Option Nat
deriving DecidableEq, Repr

/-- `isQuotaError` from line 112: HTTP status 429, or a message containing
`'429'` or `'quota'` (an empty message is falsy and short-circuits the
`includes` calls, which agrees with `containsSub` on `""`). -/
def isQuotaError (e : JsError) : Bool :=
  e.status = some 429 || containsSub e.message "429" || containsSub e.message "quota"

/-- Backoff delay before the retry following failed attempt `attempt`
(line 117): `2^attempt * 2000 + 1000` milliseconds. -/
def retryDelay (attempt : Nat) : Nat := 2 ^ attempt * 2000 + 1000

/-- The notice emitted through `onRetry` before each wait (line 119).
`Math.round(delay/1000)` is exact division here since every delay is a
multiple of 1000. -/
def retryNotice (delay : Nat) : String :=
  "(Rate limit hit. Retrying in " ++ toString (delay / 1000) ++ "s...)"

/-- The `for` loop of `generateContentStreamWithRetry` (lines 108–126).
`outcome attempt` is the result of the provider call on that attempt.
Returns the final result plus the list of backoff delays actually waited.
`fuel` counts loop iterations still permitted by `attempt <= retries`; the
`0` case is the fall-through to line 126 (`throw new Error("Max retries
exceeded")`), reached only if the loop ends without returning or
throwing. -/
def retryLoop {α : Type} (outcome : Nat → Except JsError α) (retries : Nat) :
    Nat → Nat → Except JsError α × List Nat
  | 0, _ => (.error ⟨"Error", "Max retries exceeded", none⟩, [])
  | fuel + 1, attempt =>
    match outcome attempt with
    | .ok a => (.ok a, [])
    | .error e =>
      if isQuotaError e && attempt < retries then
        let r := retryLoop outcome retries fuel (attempt + 1)
        (r.1, retryDelay attempt :: r.2)
      else (.error e, [])

/-- `generateContentStreamWithRetry` (lines 97–127): defaults an absent or
empty `params.model` to `gemini-2.5-flash`, then runs the retry loop with
`retries = 3` (attempts 0..3).  Returns the effective model and the loop
outcome. -/
def generateContentStreamWithRetry {α : Type} (modelParam : Option String)
    (outcome : Nat → Except JsError α) :
    String × (Except JsError α × List Nat) :=
  let m :=
    match modelParam with
    | none => "gemini-2.5-flash"
    | some s => if s = "" then "gemini-2.5-flash" else s
  (m, retryLoop outcome 3 4 0)

/-! ### Data model of the orchestrator -/

/-- `isGoogleModel` (part_002 lines 20–23): an empty model is treated as
native. -/
def isGoogleModel (model : String) : Bool :=
  if model = "" then true
  else strStarts model "gemini" || strStarts model "veo" || containsSub model "google"

/-- One citation/source record of the `groundingMetadata` list.  The
SEARCH handler builds `web` entries from research source URLs (line 309);
the SIMPLE handler forwards opaque `groundingChunks` from native stream
candidates (line 521), identified here by a tag chosen by the
environment. -/
inductive Cite where
  | web (uri title : String)
  | chunk (id : Nat)
deriving DecidableEq, Repr

/-- One element of a native provider stream: `chunk.text` (the empty
string models a falsy/absent text, which the source skips entirely) and
the `groundingChunks` of its first candidate (empty when absent). -/
structure Chunk where
  text : String
  grounding : List Cite
deriving DecidableEq, Repr

/-- A prior conversation turn as the orchestrator reads it. -/
structure HistMsg where
  senderIsUser : Bool
  text : String
deriving DecidableEq, Repr

/-- Name and MIME type of an attachment (contents are read through the
environment). -/
structure FileMeta where
  name : String
  ftype : String
deriving DecidableEq, Repr

/-- The outbound message (Turn) constructed at every return site:
`{ project_id, chat_id, sender: 'ai', text, image_base64?,
...metadataPayload }`. -/
structure Msg where
  projectId : String
  chatId : String
  sender : String
  text : String
  imageBase64 : Option String
  grounding : Option (List Cite)
deriving DecidableEq, Repr

/-- `AgentExecutionResult`: the `messages` array of the returned value. -/
structure AgentResult where
  messages : List Msg
deriving DecidableEq, Repr

/-- A provider/collaborator call issued by the orchestrator, with the
model identifier or prompt that names it (the full request payloads are
provider input whose effect is already captured by the environment's
responses). -/
inductive PCall where
  | research (prompt : String)
  | native (model : String) (prompt : String)
  | nativeOnce (model : String)
  | relayFetch (model : String)
  | image (prompt : String)
  | canvas (prompt : String)
  | free (finalPrompt : String)
deriving DecidableEq, Repr

/-- Observable side effects of one invocation: every string pushed through
`onStreamChunk` in order, every provider call in order, and the number of
executed re-routing loop iterations (`loopCount`). -/
structure Trace where
  emitted : List String
  calls : List PCall
  iters : Nat
deriving DecidableEq, Repr

def Trace.initial : Trace := ⟨[], [], 0⟩

def Trace.emit (t : Trace) (s : String) : Trace :=
  { t with emitted := t.emitted ++ [s] }

def Trace.emits (t : Trace) (ss : List String) : Trace :=
  { t with emitted := t.emitted ++ ss }

def Trace.call (t : Trace) (c : PCall) : Trace :=
  { t with calls := t.calls ++ [c] }

/-- The cooperative cancellation signal, as the sequence of values
returned by successive reads of `signal?.aborted`.  A check counter is
threaded through the run; check `n` reads `sig n`. -/
def Sig := Nat → Bool

/-- A real `AbortSignal` never un-aborts: once a read returns `true`,
every later read does. -/
def SigMono (sig : Sig) : Prop :=
  ∀ i j, i ≤ j → sig i = true → sig j = true

/-- `deepResearch` output `{ answer, sources }` plus the progress messages
delivered to the `onProgress` callback while it runs. -/
structure ResearchOut where
  answer : String
  sources : List String
  progress : List String

/-- One processed SSE line of the relay stream: either a `data: ` line
whose JSON carried a `choices[0].delta.content` string, or a line the
source silently skips (malformed JSON, the `[DONE]` sentinel, an event
without content). -/
inductive RelayEvent where
  | content (s : String)
  | skip
deriving DecidableEq, Repr

/-- Observable behavior of one `fetch` to the OpenRouter endpoint.
`httpError` carries `some (error.message?, error.code?)` when
`response.json()` parses, `none` when it throws.  (In the parse-failure
branch the source then awaits `response.text()`, but the body was already
consumed by `json()`, so that read rejects and the `.catch(() => "")`
yields the empty, falsy string — the `: ${textError}` suffix is never
appended.)  `stream` carries the processed lines and an optional terminal
rejection of `reader.read()`. -/
inductive RelayOutcome where
  | fetchThrow (e : JsError)
  | httpError (status : Nat) (errJson : Option (Option String × Option Nat))
  | stream (events : List RelayEvent) (endErr : Option JsError)

/-- The typed error `streamOpenRouter` throws for a non-2xx response
(lines 46–62), including the specific "No providers" sub-kind for 404. -/
def openRouterHttpError (model : String) (status : Nat)
    (errJson : Option (Option String × Option Nat)) : JsError :=
  let base := "OpenRouter Error (" ++ toString status ++ ")"
  match errJson with
  | none => ⟨"Error", base, none⟩
  | some (msg, code) =>
    let noProviders := status = 404 &&
      ((match msg with
        | some m => containsSub m "No allowed providers"
        | none => false) || code = some 404)
    if noProviders then
      ⟨"Error", "The model \"" ++ model ++
        "\" is currently unavailable via OpenRouter (No providers). Please select a different model.",
        none⟩
    else
      match msg with
      | some m => if m = "" then ⟨"Error", base, none⟩ else ⟨"Error", m, none⟩
      | none => ⟨"Error", base, none⟩

/-- The environment: every external collaborator of the orchestrator, plus
the two strings it loads from outside the core (the instruction template
and the formatted timestamp).  Provider calls are indexed by the number of
calls already issued, so the same endpoint may answer differently across a
run.  `memoryContext` stands for `JSON.stringify(memory.getContext(...))`;
the semantic router and memory layer are modelled as total since their
failure modes live outside the embedded core. -/
structure Env where
  route : String → RouterAction × Option String
  memoryContext : String
  timestamp : String
  instructionTemplate : String
  friendlyError : JsError → String
  research : Nat → String → Except JsError ResearchOut
  imageGen : String → Except JsError String
  canvasText : String → Except JsError String
  projectGen : String → Except JsError String
  nativeAttempt : Nat → Nat → Except JsError (List Chunk)
  relay : Nat → RelayOutcome
  free : Except JsError String
  freeEmits : List String
  readTextFile : String → Except JsError String
  readFileB64 : String → Except JsError String

/-! ### Stream consumption loops -/

/-- Result of a `for await` chunk loop: text appended to the
accumulators, strings emitted, grounding chunks collected, and the check
counter afterwards. -/
structure ConsumeOut where
  text : String
  emitted : List String
  cites : List Cite
  cnt : Nat
deriving Repr

/-- The native chunk loop (lines 347–353, 423–429, 510–525): each
iteration first reads `signal?.aborted` and breaks when set; a chunk with
falsy `text` is skipped entirely; otherwise the text is appended and
forwarded, and — when `collectG` (i.e. `isNative || usedFallback`) — the
candidate's grounding chunks are collected. -/
def consumeNative (sig : Sig) (collectG : Bool) :
    Nat → List Chunk → ConsumeOut
  | cnt, [] => ⟨"", [], [], cnt⟩
  | cnt, c :: rest =>
    if sig cnt then ⟨"", [], [], cnt + 1⟩
    else
      let r := consumeNative sig collectG (cnt + 1) rest
      if c.text = "" then r
      else
        ⟨c.text ++ r.text, c.text :: r.emitted,
          (if collectG then c.grounding else []) ++ r.cites, r.cnt⟩

/-- Driving the `streamOpenRouter` generator to completion from inside the
SIMPLE `for await` loop.  Per transport event the generator's own loop-top
check runs (line 71); a yielded chunk additionally passes the `for await`
body check (line 511).  The generator's final `catch` swallows an
`AbortError` (line 92) and rethrows anything else; the fourth component is
the error that escapes, if any. -/
def consumeRelay (sig : Sig) :
    Nat → List RelayEvent → Option JsError →
    String × List String × Nat × Option JsError
  | cnt, [], endErr =>
    (match endErr with
     | some e => if e.name = "AbortError" then ("", [], cnt, none) else ("", [], cnt, some e)
     | none => ("", [], cnt, none))
  | cnt, ev :: rest, endErr =>
    if sig cnt then ("", [], cnt + 1, none)
    else
      match ev with
      | .skip => consumeRelay sig (cnt + 1) rest endErr
      | .content s =>
        if s = "" then consumeRelay sig (cnt + 1) rest endErr
        else if sig (cnt + 1) then ("", [], cnt + 2, none)
        else
          let r := consumeRelay sig (cnt + 2) rest endErr
          (s ++ r.1, s :: r.2.1, r.2.2.1, r.2.2.2)

/-! ### String construction helpers of the orchestrator -/

/-- The part of `s` after the first occurrence of `pat`, when present. -/
def afterSub (s pat : String) : Option String :=
  go s.data
where
  go : List Char → Option String
    | [] => if pat.data = [] then some "" else none
    | c :: cs =>
      if pat.data.isPrefixOf (c :: cs) then
        some (String.mk ((c :: cs).drop pat.data.length))
      else go cs

/-- `new URL(url).hostname.replace('www.', '')`, defaulting to `'Source'`
when URL parsing fails (line 307–308).  Parsing is modelled best-effort: a
URL without a `://` scheme separator fails; otherwise the hostname runs to
the first delimiter.  `replace` with a string pattern removes only the
first occurrence. -/
def hostTitle (url : String) : String :=
  match afterSub url "://" with
  | none => "Source"
  | some rest =>
    let host := String.mk (rest.data.takeWhile
      (fun c => !(c = '/' || c = ':' || c = '?' || c = '#')))
    replaceFirst host "www." ""

def jsonEscapeChar (c : Char) : String :=
  if c = '"' then "\\\""
  else if c = '\\' then "\\\\"
  else if c = '\n' then "\\n"
  else if c = '\r' then "\\r"
  else if c = '\t' then "\\t"
  else String.singleton c

/-- `JSON.stringify` of a string (the escapes that can arise here). -/
def jsonEscape (s : String) : String :=
  String.join (s.data.map jsonEscapeChar)

/-- The progress object the IMAGE handler stringifies into the sink
(line 358). -/
def imageStartNotice (finalText : String) : String :=
  "\x7b\"type\":\"image_generation_start\",\"text\":\"" ++ jsonEscape finalText ++ "\"\x7d"

/-- JS `\w`. -/
def isWordChar (c : Char) : Bool := c.isAlphanum || c = '_'

/-- `.replace(/\b\w/g, l => l.toUpperCase())`: uppercase every word char
at a word boundary. -/
def titleCase (s : String) : String :=
  String.mk (go none s.data)
where
  go : Option Char → List Char → List Char
    | _, [] => []
    | prev, c :: cs =>
      let boundary :=
        match prev with
        | some p => !isWordChar p
        | none => true
      (if isWordChar c && boundary then c.toUpper else c) :: go (some c) cs

/-- `friendlyModelName` (lines 271–274): last path segment (or the whole
model if that segment is empty), dashes to spaces, then title-cased. -/
def friendlyModelName (model : String) : String :=
  let raw := String.mk ((splitChar '/' model.data).getLastD [])
  let raw := if raw = "" then model else raw
  titleCase (String.mk (raw.data.map (fun c => if c = '-' then ' ' else c)))

/-- `modelIdentityBlock` (lines 276–280). -/
def modelIdentityBlock (model : String) (thinkingBudget : Nat) : String :=
  let fname := friendlyModelName model
  let base := "You are currently running on the model: **" ++ fname ++
    "**.\nIf the user asks \"Which AI model are you?\", reply that you are Bubble, running on "
    ++ fname ++ "."
  if thinkingBudget > 0 then
    base ++ "\n\n[THINKING ENABLED]\nYou have extended reasoning capabilities (Budget: " ++
      toString thinkingBudget ++
      " tokens). \n\n**CRITICAL MANDATORY REQUIREMENT:**\nYou MUST output your internal thought process wrapped inside <THINK> tags at the very beginning of your response. \nExample: <THINK>I need to calculate the trajectory...</THINK> Here is the answer...\n\nFailure to include the <THINK> block will be considered a system error. YOU MUST THINK FIRST."
  else base

/-- `dateTimeContext` (line 269). -/
def dateTimeContext (timestamp : String) : String :=
  "[CURRENT DATE & TIME]\n" ++ timestamp ++ "\n"

/-- The synthesis prompt built by the SEARCH/DEEP_SEARCH handler
(line 314). -/
def synthesisPrompt (userQuery answer : String) : String :=
  "USER QUERY: " ++ userQuery ++ "\n\nSEARCH CONTEXT:\n" ++ answer ++
    "\n\nINSTRUCTIONS: Synthesize a comprehensive answer to the user's query based ONLY on the provided search context. Cite sources using [1], [2] format where appropriate."

/-- The rewritten prompt for a detected YouTube link (line 253). -/
def youtubePrompt (videoType videoId fullMatch : String) : String :=
  "Find details for YouTube " ++ videoType ++ " ID: " ++ videoId ++
    ". Title, Channel, and Summary. URL: " ++ fullMatch

/-! ### The re-routing loop -/

/-- Values fixed before the loop starts and read by the handlers. -/
structure LoopCfg where
  isNative : Bool
  thinkingBudget : Nat
  baseSystem : String
  memoryContext : String
  timestamp : String
  history : List HistMsg
  files : List FileMeta
  prompt : String
  projectId : String
  chatId : String
  openRouterKey : String
deriving Repr

/-- The loop's mutable variables: `currentAction`, `currentPrompt`,
`finalResponseText`, `metadataPayload.groundingMetadata`,
`fallbackSearchContext`, the (reassignable) `model`, and
`routing.parameters?.prompt`. -/
structure LoopSt where
  action : RouterAction
  prompt : String
  finalText : String
  grounding : Option (List Cite)
  fallbackCtx : String
  model : String
  imageParams : Option String
deriving DecidableEq, Repr

/-- Outcome of one `switch` dispatch: a `return`, an exception escaping
the `switch` (carrying the value of `finalResponseText` at that moment,
which the top-level catch reads), or a `continue` with the updated
state. -/
inductive StepRes where
  | ret (r : AgentResult)
  | thrown (e : JsError) (finalTextAtThrow : String)
  | next (st : LoopSt)
deriving Repr

/-- The message built at the in-loop return sites: metadata spread in,
optional image payload. -/
def mkMsg (cfg : LoopCfg) (text : String) (img : Option String)
    (grounding : Option (List Cite)) : Msg :=
  ⟨cfg.projectId, cfg.chatId, "ai", text, img, grounding⟩

/-- Emission of research progress messages (line 302): each callback
invocation reads the signal and forwards `"\n*" ++ msg ++ "*"` only when
not aborted. -/
def emitProgress (sig : Sig) : Nat → List String → List String × Nat
  | cnt, [] => ([], cnt)
  | cnt, m :: ms =>
    let r := emitProgress sig (cnt + 1) ms
    if sig cnt then r else (("\n*" ++ m ++ "*") :: r.1, r.2)

/-- SEARCH / DEEP_SEARCH handler (lines 297–319): research, then rewrite
`(currentAction, currentPrompt)` to a SIMPLE synthesis pass.  When the
research result carries sources, `metadataPayload.groundingMetadata` is
*assigned* (replacing any previous value). -/
def searchStep (env : Env) (sig : Sig) (st : LoopSt) (tr : Trace) (cnt : Nat) :
    StepRes × Trace × Nat :=
  let tr := tr.emit "\nSearching sources...\n"
  let idx := tr.calls.length
  let tr := tr.call (.research st.prompt)
  match env.research idx st.prompt with
  | .error e => (.thrown e st.finalText, tr, cnt)
  | .ok r =>
    let prog := emitProgress sig cnt r.progress
    let tr := tr.emits prog.1
    let grounding :=
      if r.sources ≠ [] then
        some (r.sources.map (fun u => Cite.web u (hostTitle u)))
      else st.grounding
    (.next { st with
        action := .SIMPLE
        prompt := synthesisPrompt st.prompt r.answer
        grounding := grounding
        fallbackCtx := r.answer },
      tr, prog.2)

/-- THINK handler (lines 321–355): force a thinking-capable model, stream
with the retry controller, and return directly after the stream (no
directive re-scan).  `incrementThinkingCount` is a fire-and-forget
database write with no observable effect on the turn. -/
def thinkStep (env : Env) (sig : Sig) (cfg : LoopCfg) (st : LoopSt)
    (tr : Trace) (cnt : Nat) : StepRes × Trace × Nat :=
  let model :=
    if !(containsSub st.model "gemini-2.5" || containsSub st.model "gemini-3") then
      "gemini-2.5-flash"
    else st.model
  let tr := tr.emit "\nThinking deeply...\n"
  let idx := tr.calls.length
  let tr := tr.call (.native model st.prompt)
  let res := generateContentStreamWithRetry (some model) (env.nativeAttempt idx)
  let tr := tr.emits (res.2.2.map retryNotice)
  match res.2.1 with
  | .error e => (.thrown e st.finalText, tr, cnt)
  | .ok chunks =>
    let c := consumeNative sig false cnt chunks
    let tr := tr.emits c.emitted
    (.ret ⟨[mkMsg cfg (st.finalText ++ c.text) none st.grounding]⟩, tr, c.cnt)

/-- IMAGE handler (lines 357–378): image failure degrades to an inline
note and still returns successfully. -/
def imageStep (env : Env) (cfg : LoopCfg) (st : LoopSt) (tr : Trace) (cnt : Nat) :
    StepRes × Trace × Nat :=
  let tr := tr.emit (imageStartNotice st.finalText)
  let imagePrompt :=
    match st.imageParams with
    | some p => if p = "" then st.prompt else p
    | none => st.prompt
  let tr := tr.call (.image imagePrompt)
  match env.imageGen imagePrompt with
  | .ok b64 =>
    (.ret ⟨[mkMsg cfg st.finalText (some b64) st.grounding]⟩, tr, cnt)
  | .error e =>
    let errorMsg := "\n\n(Image generation failed: " ++ e.message ++ ")"
    let tr := tr.emit errorMsg
    (.ret ⟨[mkMsg cfg (st.finalText ++ errorMsg) none st.grounding]⟩, tr, cnt)

/-- CANVAS handler (lines 380–394): delegate to the canvas agent and adopt
its text (`|| ""`) as the final text. -/
def canvasStep (env : Env) (cfg : LoopCfg) (st : LoopSt) (tr : Trace) (cnt : Nat) :
    StepRes × Trace × Nat :=
  let tr := tr.call (.canvas st.prompt)
  match env.canvasText st.prompt with
  | .error e => (.thrown e st.finalText, tr, cnt)
  | .ok t => (.ret ⟨[mkMsg cfg t none st.grounding]⟩, tr, cnt)

/-- PROJECT handler (lines 396–411): degrade to SIMPLE on a non-Google
model, otherwise one non-streaming structured call, terminal. -/
def projectStep (env : Env) (cfg : LoopCfg) (st : LoopSt) (tr : Trace) (cnt : Nat) :
    StepRes × Trace × Nat :=
  if !isGoogleModel st.model then (.next { st with action := .SIMPLE }, tr, cnt)
  else
    let tr := tr.emit "\nBuilding project structure...\n"
    let tr := tr.call (.nativeOnce "gemini-2.5-flash")
    match env.projectGen st.prompt with
    | .error e => (.thrown e st.finalText, tr, cnt)
    | .ok t =>
      let projectMsg := "\nI've designed the project structure based on your request.\n\n" ++
        t ++ "\n\n(Switch to Co-Creator mode to fully hydrate and edit these files.)"
      let tr := tr.emit projectMsg
      (.ret ⟨[mkMsg cfg (st.finalText ++ projectMsg) none st.grounding]⟩, tr, cnt)

/-- STUDY handler (lines 413–431): degrade to SIMPLE on a non-Google
model, otherwise one retried streaming call, terminal. -/
def studyStep (env : Env) (sig : Sig) (cfg : LoopCfg) (st : LoopSt)
    (tr : Trace) (cnt : Nat) : StepRes × Trace × Nat :=
  if !isGoogleModel st.model then (.next { st with action := .SIMPLE }, tr, cnt)
  else
    let tr := tr.emit "\nCreating study plan...\n"
    let idx := tr.calls.length
    let tr := tr.call (.native "gemini-2.5-flash" st.prompt)
    let res := generateContentStreamWithRetry (some "gemini-2.5-flash") (env.nativeAttempt idx)
    let tr := tr.emits (res.2.2.map retryNotice)
    match res.2.1 with
    | .error e => (.thrown e st.finalText, tr, cnt)
    | .ok chunks =>
      let c := consumeNative sig false cnt chunks
      let tr := tr.emits c.emitted
      (.ret ⟨[mkMsg cfg (st.finalText ++ c.text) none st.grounding]⟩, tr, c.cnt)

/-- Per-attachment `readAsDataURL` reads of the SIMPLE native path
(lines 449–458); a rejection propagates with no local handler. -/
def simpleReadFiles (env : Env) : List FileMeta → Option JsError
  | [] => none
  | f :: fs =>
    match env.readFileB64 f.name with
    | .error e => some e
    | .ok _ => simpleReadFiles env fs

/-- Tail of the SIMPLE handler after its stream ended (lines 508–548):
append this iteration's text, merge collected grounding chunks, scan the
*current iteration's* text for directives, and either continue with the
dispatched `(action, prompt)` or terminate (substituting unused search
context for an empty completion). -/
def simpleScan (cfg : LoopCfg) (st : LoopSt) (tr : Trace) (cnt : Nat)
    (generatedThisLoop : String) (cites : List Cite) : StepRes × Trace × Nat :=
  let finalText := st.finalText ++ generatedThisLoop
  let grounding :=
    if cites ≠ [] then some (st.grounding.getD [] ++ cites) else st.grounding
  match scanDirectives generatedThisLoop cfg.prompt with
  | some r =>
    (.next { st with
        action := r.action
        prompt := r.prompt
        finalText := finalText
        grounding := grounding
        imageParams :=
          match r.imageParams with
          | some p => some p
          | none => st.imageParams },
      tr, cnt)
  | none =>
    if jsTrim finalText = "" && st.fallbackCtx ≠ "" then
      let tr := tr.emit st.fallbackCtx
      (.ret ⟨[mkMsg cfg st.fallbackCtx none grounding]⟩, tr, cnt)
    else (.ret ⟨[mkMsg cfg finalText none grounding]⟩, tr, cnt)

/-- SIMPLE / default handler (lines 433–549).  History shaping
(lines 435–464) only builds provider input, which the environment's
responses already determine; attachment reads can reject and propagate.
On the relay path, the `try` at line 485 wraps only the *creation* of the
`streamOpenRouter` async generator; calling an async generator function
runs none of its body and cannot throw, so the fallback `catch`
(lines 488–504) never fires and `usedFallback` stays false — an error
surfacing while the generator is driven by the `for await` at line 510
propagates past it to the top-level boundary. -/
def simpleStep (env : Env) (sig : Sig) (cfg : LoopCfg) (st : LoopSt)
    (tr : Trace) (cnt : Nat) : StepRes × Trace × Nat :=
  let fileErr :=
    if cfg.files ≠ [] && cfg.isNative then simpleReadFiles env cfg.files else none
  match fileErr with
  | some e => (.thrown e st.finalText, tr, cnt)
  | none =>
    if cfg.isNative then
      let idx := tr.calls.length
      let tr := tr.call (.native st.model st.prompt)
      let res := generateContentStreamWithRetry (some st.model) (env.nativeAttempt idx)
      let tr := tr.emits (res.2.2.map retryNotice)
      match res.2.1 with
      | .error e => (.thrown e st.finalText, tr, cnt)
      | .ok chunks =>
        let c := consumeNative sig true cnt chunks
        let tr := tr.emits c.emitted
        simpleScan cfg st tr c.cnt c.text c.cites
    else
      let idx := tr.calls.length
      let tr := tr.call (.relayFetch st.model)
      match env.relay idx with
      | .fetchThrow e =>
        -- an aborted fetch is swallowed by the generator (line 92): the
        -- stream just ends with nothing yielded
        if e.name = "AbortError" then simpleScan cfg st tr cnt "" []
        else (.thrown e st.finalText, tr, cnt)
      | .httpError status errJson =>
        (.thrown (openRouterHttpError st.model status errJson) st.finalText, tr, cnt)
      | .stream events endErr =>
        let c := consumeRelay sig cnt events endErr
        let tr := tr.emits c.2.1
        match c.2.2.2 with
        | some e => (.thrown e (st.finalText ++ c.1), tr, c.2.2.1)
        | none => simpleScan cfg st tr c.2.2.1 c.1 []

/-- One execution of the `switch (currentAction)` (lines 296–550).
`SIMPLE` is also the `default` arm, and our action type enumerates the
router's actions exhaustively. -/
def iterBody (env : Env) (sig : Sig) (cfg : LoopCfg) (st : LoopSt)
    (tr : Trace) (cnt : Nat) : StepRes × Trace × Nat :=
  match st.action with
  | .SEARCH => searchStep env sig st tr cnt
  | .DEEP_SEARCH => searchStep env sig st tr cnt
  | .THINK => thinkStep env sig cfg st tr cnt
  | .IMAGE => imageStep env cfg st tr cnt
  | .CANVAS => canvasStep env cfg st tr cnt
  | .PROJECT => projectStep env cfg st tr cnt
  | .STUDY => studyStep env sig cfg st tr cnt
  | .SIMPLE => simpleStep env sig cfg st tr cnt

/-- Outcome of the `try` body: a normal return, or an exception reaching
the boundary at line 555 together with the `finalResponseText` current at
that moment. -/
inductive RunOut where
  | finished (r : AgentResult)
  | raised (e : JsError) (finalTextAtThrow : String)
deriving Repr

/-- `MAX_LOOPS` (line 290). -/
def MAX_LOOPS : Nat := 6

/-- The `while (loopCount < MAX_LOOPS)` loop (lines 292–551) plus the
post-loop return (line 553).  `fuel` is `MAX_LOOPS - loopCount`; each
iteration first reads the signal (line 293) and breaks when aborted; the
post-loop return (reached on abort or on loop exhaustion) carries the
accumulated text and the metadata spread. -/
def runLoop (env : Env) (sig : Sig) (cfg : LoopCfg) :
    Nat → LoopSt → Trace → Nat → RunOut × Trace × Nat
  | 0, st, tr, cnt =>
    (.finished ⟨[mkMsg cfg st.finalText none st.grounding]⟩, tr, cnt)
  | fuel + 1, st, tr, cnt =>
    if sig cnt then
      (.finished ⟨[mkMsg cfg st.finalText none st.grounding]⟩, tr, cnt + 1)
    else
      let b := iterBody env sig cfg st { tr with iters := tr.iters + 1 } (cnt + 1)
      match b.1 with
      | .ret r => (.finished r, b.2.1, b.2.2)
      | .thrown e ft => (.raised e ft, b.2.1, b.2.2)
      | .next st' => runLoop env sig cfg fuel st' b.2.1 b.2.2

/-! ### Instant mode and the top-level entry point -/

/-- The caller's input, restricted to the fields the control logic reads
(credentials, supabase handles and profile fields other than the two
modelled preferences are opaque pass-through). -/
structure AgentInput where
  prompt : String
  files : List FileMeta
  history : List HistMsg
  model : String
  thinkingMode : String
  preferredDeepModel : Option String
  openRouterKey : Option String
  projectId : String
  chatId : String
deriving Repr

/-- File extension whitelist of instant mode (lines 159–171). -/
def isTextLike (f : FileMeta) : Bool :=
  strStarts f.ftype "text/" ||
    [".js", ".ts", ".tsx", ".jsx", ".py", ".json", ".md", ".html", ".css", ".lua"].any
      (fun suf => suf.data.isSuffixOf f.name.data)

/-- Instant-mode attachment notes (lines 155–183): image attachments
produce an apology note, text-like files are read (a per-file read failure
is caught locally and becomes an inline error marker), anything else a
binary marker.  Returns `(imageNote, fileContext)`. -/
def instantNotes (env : Env) : List FileMeta → String × String
  | [] => ("", "")
  | f :: fs =>
    let r := instantNotes env fs
    if strStarts f.ftype "image/" then
      ("\n[User attached an image: \"" ++ f.name ++
        "\". Note: I cannot see images in Instant Mode, so I should ask the user to describe it if needed.]"
        ++ r.1, r.2)
    else if isTextLike f then
      match env.readTextFile f.name with
      | .ok c =>
        (r.1, "\n\n--- FILE CONTENT: " ++ f.name ++ " ---\n" ++ c ++ "\n--- END FILE ---\n" ++ r.2)
      | .error _ => (r.1, "\n[Error reading file: " ++ f.name ++ "]" ++ r.2)
    else (r.1, "\n[Attached file: " ++ f.name ++ " (Binary/Unsupported for read)]" ++ r.2)

/-- The INSTANT branch (lines 144–195): bypasses routing entirely and
calls the free provider once; on success it returns the single message,
while *any* rejection inside the branch — the free call failing or being
aborted — is re-thrown to the caller as `"Instant mode service
unavailable."` (lines 191–194), bypassing the error-as-text boundary of
the non-instant path. -/
def runInstant (env : Env) (inp : AgentInput) : Except JsError AgentResult × Trace :=
  let notes := instantNotes env inp.files
  let finalPrompt := inp.prompt ++ notes.1 ++ notes.2
  let tr := (Trace.initial.call (.free finalPrompt)).emits env.freeEmits
  match env.free with
  | .ok t => (.ok ⟨[⟨inp.projectId, inp.chatId, "ai", t, none, none⟩]⟩, tr)
  | .error _ => (.error ⟨"Error", "Instant mode service unavailable.", none⟩, tr)

/-- The non-instant preamble (lines 197–290): model defaulting, the
three-tier thinking-mode handling, the compatibility and missing-key
fallbacks, YouTube detection with prompt rewrite, the classifier call and
its override, and the construction of system instruction and initial loop
state.  Returns the loop configuration, the initial loop state and the
trace of notices emitted so far. -/
def preLoop (env : Env) (inp : AgentInput) : LoopCfg × LoopSt × Trace :=
  -- model defaulting (lines 197–199)
  let model1 := if jsTrim inp.model = "" then "gemini-2.5-flash" else inp.model
  -- three-tier thinking-mode handling (lines 201–219)
  let deepChoice :=
    match inp.preferredDeepModel with
    | some p => if p = "" then "gemini-3-pro-preview" else p
    | none => "gemini-3-pro-preview"
  let mb : String × Nat :=
    if inp.thinkingMode = "deep" then (deepChoice, 8192)
    else if inp.thinkingMode = "think" then ("gemini-2.5-flash", 2048)
    else (model1, 0)
  -- thinking-compatibility fallback (lines 223–226)
  let compat := mb.2 > 0 && !(containsSub mb.1 "gemini-2.5" || containsSub mb.1 "gemini-3")
  let tr := Trace.initial
  let tr :=
    if compat then
      tr.emit "\n*(Switched to Gemini 2.5 Flash for Thinking mode compatibility)*\n"
    else tr
  let model2 := if compat then "gemini-2.5-flash" else mb.1
  -- try block (line 230): isNative is fixed *before* the key fallback
  let isNative := isGoogleModel model2
  let keyPresent :=
    match inp.openRouterKey with
    | some k => k ≠ ""
    | none => false
  let keyFallback := !isNative && !keyPresent
  let tr :=
    if keyFallback then tr.emit "\n*(OpenRouter key missing, falling back to Gemini...)*\n"
    else tr
  let model3 := if keyFallback then "gemini-2.5-flash" else model2
  -- YouTube detection and prompt rewrite (lines 243–254)
  let shortsM := jsMatch youtubeShortsRE inp.prompt
  let mainM := jsMatch youtubeRE inp.prompt
  let ytOverride := shortsM.isSome || mainM.isSome
  let prompt2 :=
    match shortsM with
    | some m => youtubePrompt "Short" (m.payload.getD "") m.full
    | none =>
      match mainM with
      | some m => youtubePrompt "Video" (m.payload.getD "") m.full
      | none => inp.prompt
  -- classifier call (line 257) and routing override (lines 259–262)
  let routing := env.route prompt2
  let action0 := if ytOverride then RouterAction.SEARCH else routing.1
  let params0 := if ytOverride then none else routing.2
  let baseSystem :=
    replaceFirst env.instructionTemplate "[MODEL_IDENTITY_BLOCK]"
      (modelIdentityBlock model3 mb.2)
  let cfg : LoopCfg :=
    ⟨isNative, mb.2, baseSystem, env.memoryContext, env.timestamp,
      inp.history, inp.files, prompt2, inp.projectId, inp.chatId,
      inp.openRouterKey.getD ""⟩
  let st0 : LoopSt := ⟨action0, prompt2, "", none, "", model3, params0⟩
  (cfg, st0, tr)

/-- `runAutonomousAgent` (lines 139–563).  Returns the settled value of
the returned promise — `.ok` a result, `.error` a rejection — together
with the trace of sink emissions and provider calls and the final check
counter. -/
def runAutonomousAgent (env : Env) (sig : Sig) (inp : AgentInput) :
    Except JsError AgentResult × Trace × Nat :=
  if inp.thinkingMode = "instant" then
    let r := runInstant env inp
    (r.1, r.2, 0)
  else
    let p := preLoop env inp
    let r := runLoop env sig p.1 MAX_LOOPS p.2.1 p.2.2 0
    match r.1 with
    | .finished res => (.ok res, r.2.1, r.2.2)
    | .raised e ft =>
      -- the single catch boundary (lines 555–562)
      if e.name = "AbortError" then
        (.ok ⟨[⟨inp.projectId, inp.chatId, "ai",
          (if ft = "" then "(Generation stopped by user)" else ft), none, none⟩]⟩,
          r.2.1, r.2.2)
      else
        let m :=
          if e.message ≠ "" && containsSub e.message "OpenRouter" then e.message
          else env.friendlyError e
        (.ok ⟨[⟨inp.projectId, inp.chatId, "ai", "An error occurred: " ++ m, none, none⟩]⟩,
          r.2.1, r.2.2)

/-! ### Concrete fixtures for witnesses and counterexamples -/

/-- A benign environment in which every collaborator succeeds. -/
def baseEnv : Env where
  route _ := (.SIMPLE, none)
  memoryContext := "MC"
  timestamp := "TS"
  instructionTemplate := "[MODEL_IDENTITY_BLOCK]"
  friendlyError e := "friendly " ++ e.message
  research _ p := .ok ⟨"ans-for " ++ p, [], []⟩
  imageGen _ := .ok "IMG64"
  canvasText _ := .ok "CANVASTEXT"
  projectGen _ := .ok "PROJJSON"
  nativeAttempt _ _ := .ok [⟨"hello", []⟩]
  relay _ := .stream [.content "rel"] none
  free := .ok "freetext"
  freeEmits := []
  readTextFile _ := .ok "tc"
  readFileB64 _ := .ok "b64"

/-- A signal that never aborts. -/
def sigOff : Sig := fun _ => false

/-- A signal that is aborted from the very first read on. -/
def sigOn : Sig := fun _ => true

/-- A plain fast-mode invocation with the default (empty) model. -/
def baseInput : AgentInput :=
  ⟨"hi there", [], [], "", "fast", none, none, "P", "C"⟩

/-- A native environment whose model re-emits a `<SEARCH>` directive on
every SIMPLE pass, so the loop would redirect forever without the cap. -/
def spamEnv : Env :=
  { baseEnv with nativeAttempt := fun _ _ => .ok [⟨"<SEARCH>cats</SEARCH>", []⟩] }

/-- The relay answers HTTP 404 carrying the "No allowed providers"
marker. -/
def noProvidersEnv : Env :=
  { baseEnv with
    relay := fun _ =>
      RelayOutcome.httpError 404 (some (some "No allowed providers are available", none)) }

/-- A fast-mode invocation that selects a non-Google model, with an
OpenRouter key configured. -/
def relayInput : AgentInput :=
  { baseInput with model := "openai/gpt-4o", openRouterKey := some "orkey" }

/-- The directive decision taken by a SIMPLE handler outcome: the
reassigned `(action, prompt)` when a directive dispatched, `none` when the
handler terminated. -/
def scanDecision : StepRes → Option (RouterAction × String)
  | .next st => some (st.action, st.prompt)
  | _ => none

/-- Directive strings exercising the whole precedence chain, from all
seven tags present down to one. -/
def tags1 : String := "<STUDY>g</STUDY>"

def tags2 : String := "<CANVAS>f</CANVAS>" ++ tags1

def tags3 : String := "<PROJECT>e</PROJECT>" ++ tags2

def tags4 : String := "<IMAGE>d</IMAGE>" ++ tags3

def tags5 : String := "<THINK>c</THINK>" ++ tags4

def tags6 : String := "<SEARCH>b</SEARCH>" ++ tags5

def tags7 : String := "<DEEP>a</DEEP>" ++ tags6

/-- A user prompt containing a YouTube link, which the preamble rewrites
before the loop starts. -/
def ytInput : AgentInput := { baseInput with prompt := "watch youtu.be/dQw4w9WgXcQ" }

/-- The rewritten prompt the preamble installs for `ytInput`. -/
def ytRewritten : String :=
  "Find details for YouTube Video ID: dQw4w9WgXcQ. Title, Channel, and Summary. URL: youtu.be/dQw4w9WgXcQ"

/-- The second native call (the synthesis pass) streams a bare
unterminated `<THINK>`. -/
def thinkSpamEnv : Env :=
  { baseEnv with
    nativeAttempt := fun i _ =>
      if i = 1 then .ok [⟨"<THINK>", []⟩] else .ok [⟨"done", []⟩] }

/-- Iteration 1 (SIMPLE) yields a grounding chunk plus a search directive;
the research call then returns one source. -/
def metaEnv : Env :=
  { baseEnv with
    nativeAttempt := fun i _ =>
      if i = 0 then .ok [⟨"x<SEARCH>q</SEARCH>", [.chunk 7]⟩] else .ok [⟨"done", []⟩]
    research := fun _ _ => .ok ⟨"ans", ["https://www.example.org/page"], []⟩ }

/-- A classifier that always proposes CANVAS, to show the override wins. -/
def canvasRouteEnv : Env := { baseEnv with route := fun _ => (.CANVAS, none) }

/-! ### Helper lemmas -/

lemma trace_emit_iters (t : Trace) (s : String) : (t.emit s).iters = t.iters := rfl

lemma trace_emits_iters (t : Trace) (ss : List String) : (t.emits ss).iters = t.iters := rfl

lemma trace_call_iters (t : Trace) (c : PCall) : (t.call c).iters = t.iters := rfl

/-- The delays the retry loop waits are an initial run of the backoff
schedule starting at the current attempt, of length at most
`retries - attempt`. -/
lemma retryLoop_delays {α : Type} (outcome : Nat → Except JsError α) (retries : Nat) :
    ∀ fuel attempt, ∃ k, k ≤ retries - attempt ∧
      (retryLoop outcome retries fuel attempt).2 =
        (List.range k).map (fun i => retryDelay (attempt + i))
  | 0, attempt => ⟨0, by simp [retryLoop]⟩
  | fuel + 1, attempt => by
    cases h : outcome attempt with
    | ok a =>
      refine ⟨0, Nat.zero_le _, ?_⟩
      unfold retryLoop
      rw [h]
      simp
    | error e =>
      by_cases hq : isQuotaError e = true ∧ attempt < retries
      · obtain ⟨k, hk, hd⟩ := retryLoop_delays outcome retries fuel (attempt + 1)
        have hstep : (retryLoop outcome retries (fuel + 1) attempt).2
            = retryDelay attempt :: (retryLoop outcome retries fuel (attempt + 1)).2 := by
          conv_lhs => unfold retryLoop
          rw [h]
          simp [hq.1, hq.2]
        refine ⟨k + 1, by omega, ?_⟩
        rw [hstep, hd, List.range_succ_eq_map, List.map_cons, List.map_map, Nat.add_zero]
        refine List.cons_eq_cons.mpr ⟨rfl, ?_⟩
        apply List.map_congr_left
        intro i _
        simp only [Function.comp_apply]
        congr 1
        omega
      · refine ⟨0, Nat.zero_le _, ?_⟩
        conv_lhs => unfold retryLoop
        rw [h]
        simp [hq]

/-! ### C3 — the retry controller -/

/-- C3 counterexample: let every attempt fail with a 429 quota error.
The retry budget is exhausted after 4 attempts and 3000+5000+9000 ms of
backoff, but the error raised is the final quota error itself, whose
message is not `"Max retries exceeded"` — the claim's terminal
"max retries exceeded" error is unreachable (the loop always returns or
rethrows before falling through to line 126). -/
theorem C3_retry_counterexample :
    (generateContentStreamWithRetry (some "gemini-2.5-flash")
        (fun _ => (.error ⟨"Error", "quota exceeded", some 429⟩ : Except JsError (List Chunk)))).2
      = (.error ⟨"Error", "quota exceeded", some 429⟩, [3000, 5000, 9000]) ∧
    "quota exceeded" ≠ "Max retries exceeded" := by
  exact ⟨rfl, by decide⟩

/-- C3 (amended): the retry controller retries only on quota/rate-limit
errors (status 429 or a message containing `'429'` or `'quota'`), makes at
most 4 attempts with waits that always form a prefix of
`[3000, 5000, 9000]` ms (`2^attempt * 2000 + 1000`); a non-quota error
propagates immediately with no retry; 429s on attempts 0 and 1 followed by
success on attempt 2 cost exactly 3000 ms + 5000 ms = 8000 ms of delay and
succeed; and exhausting the retry budget on quota errors propagates the
final quota error itself (not a `"Max retries exceeded"` error, whose
throw site is unreachable). -/
theorem C3_retry_amended (mp : Option String)
    (outcome : Nat → Except JsError (List Chunk)) :
    (∀ e, outcome 0 = .error e → isQuotaError e = false →
      (generateContentStreamWithRetry mp outcome).2 = (.error e, [])) ∧
    (generateContentStreamWithRetry mp outcome).2.2 <+: [3000, 5000, 9000] ∧
    (∀ v q, outcome 0 = .error q → outcome 1 = .error q → outcome 2 = .ok v →
      isQuotaError q = true →
      (generateContentStreamWithRetry mp outcome).2 = (.ok v, [3000, 5000]) ∧
      ([3000, 5000] : List Nat).sum = 3000 + 5000) ∧
    (∀ q : Nat → JsError, (∀ i, outcome i = .error (q i)) →
      (∀ i, isQuotaError (q i) = true) →
      (generateContentStreamWithRetry mp outcome).2 = (.error (q 3), [3000, 5000, 9000])) := by
  have hgen : (generateContentStreamWithRetry mp outcome).2 = retryLoop outcome 3 4 0 := rfl
  refine ⟨?_, ?_, ?_, ?_⟩
  · intro e h0 hq
    rw [hgen]
    conv_lhs => unfold retryLoop
    rw [h0]
    simp [hq]
  · obtain ⟨k, hk, hd⟩ := retryLoop_delays outcome 3 4 0
    rw [hgen, hd]
    have h3 : (List.range 3).map (fun i => retryDelay (0 + i)) = [3000, 5000, 9000] := by
      decide
    have ht : (List.range k).map (fun i => retryDelay (0 + i)) =
        ((List.range 3).map (fun i => retryDelay (0 + i))).take k := by
      rw [← List.map_take, List.take_range]
      congr 2
      omega
    rw [ht, h3]
    exact List.take_prefix _ _
  · intro v q h0 h1 h2 hq
    have e2 : retryLoop outcome 3 2 2 = (.ok v, []) := by
      conv_lhs => unfold retryLoop
      rw [h2]
    have e1 : retryLoop outcome 3 3 1 = (.ok v, [5000]) := by
      conv_lhs => unfold retryLoop
      rw [h1]
      simp [hq, e2, retryDelay]
    have e0 : retryLoop outcome 3 4 0 = (.ok v, [3000, 5000]) := by
      conv_lhs => unfold retryLoop
      rw [h0]
      simp [hq, e1, retryDelay]
    exact ⟨by rw [hgen]; exact e0, rfl⟩
  · intro q hall hquota
    have e3 : retryLoop outcome 3 1 3 = (.error (q 3), []) := by
      conv_lhs => unfold retryLoop
      rw [hall 3]
      simp
    have e2 : retryLoop outcome 3 2 2 = (.error (q 3), [9000]) := by
      conv_lhs => unfold retryLoop
      rw [hall 2]
      simp [hquota 2, e3, retryDelay]
    have e1 : retryLoop outcome 3 3 1 = (.error (q 3), [5000, 9000]) := by
      conv_lhs => unfold retryLoop
      rw [hall 1]
      simp [hquota 1, e2, retryDelay]
    have e0 : retryLoop outcome 3 4 0 = (.error (q 3), [3000, 5000, 9000]) := by
      conv_lhs => unfold retryLoop
      rw [hall 0]
      simp [hquota 0, e1, retryDelay]
    rw [hgen]
    exact e0

/-- Witness for `C3_retry_amended`: instantiating at a non-quota failure
(immediate propagation) and at the mocked 429/429/success scenario. -/
theorem C3_retry_amended_witness :
    ((generateContentStreamWithRetry (some "gemini-2.5-flash")
        (fun _ => (.error ⟨"Error", "boom", none⟩ : Except JsError (List Chunk)))).2
      = (.error ⟨"Error", "boom", none⟩, [])) ∧
    ((generateContentStreamWithRetry (some "gemini-2.5-flash")
        (fun n => if n ≤ 1 then (.error ⟨"Error", "rate", some 429⟩ : Except JsError (List Chunk))
          else .ok [⟨"ok", []⟩])).2
      = (.ok [⟨"ok", []⟩], [3000, 5000])) := by
  constructor
  · exact (C3_retry_amended (some "gemini-2.5-flash") _).1 ⟨"Error", "boom", none⟩ rfl (by decide)
  · exact ((C3_retry_amended (some "gemini-2.5-flash") _).2.2.1 [⟨"ok", []⟩]
      ⟨"Error", "rate", some 429⟩ rfl rfl rfl (by decide)).1

/-! ### C4 — the loop bound -/

lemma searchStep_iters (env : Env) (sig : Sig) (st : LoopSt) (tr : Trace) (cnt : Nat) :
    ((searchStep env sig st tr cnt).2.1).iters = tr.iters := by
  unfold searchStep
  dsimp only
  split <;> simp [Trace.emit, Trace.emits, Trace.call]

lemma thinkStep_iters (env : Env) (sig : Sig) (cfg : LoopCfg) (st : LoopSt)
    (tr : Trace) (cnt : Nat) :
    ((thinkStep env sig cfg st tr cnt).2.1).iters = tr.iters := by
  unfold thinkStep
  dsimp only
  split <;> (try split) <;> simp [Trace.emit, Trace.emits, Trace.call]

lemma imageStep_iters (env : Env) (cfg : LoopCfg) (st : LoopSt) (tr : Trace) (cnt : Nat) :
    ((imageStep env cfg st tr cnt).2.1).iters = tr.iters := by
  unfold imageStep
  dsimp only
  split <;> (try split) <;> simp [Trace.emit, Trace.emits, Trace.call]

lemma canvasStep_iters (env : Env) (cfg : LoopCfg) (st : LoopSt) (tr : Trace) (cnt : Nat) :
    ((canvasStep env cfg st tr cnt).2.1).iters = tr.iters := by
  unfold canvasStep
  dsimp only
  split <;> simp [Trace.emit, Trace.emits, Trace.call]

lemma projectStep_iters (env : Env) (cfg : LoopCfg) (st : LoopSt) (tr : Trace) (cnt : Nat) :
    ((projectStep env cfg st tr cnt).2.1).iters = tr.iters := by
  unfold projectStep
  dsimp only
  split <;> (try split) <;> simp [Trace.emit, Trace.emits, Trace.call]

lemma studyStep_iters (env : Env) (sig : Sig) (cfg : LoopCfg) (st : LoopSt)
    (tr : Trace) (cnt : Nat) :
    ((studyStep env sig cfg st tr cnt).2.1).iters = tr.iters := by
  unfold studyStep
  dsimp only
  split <;> (try split) <;> simp [Trace.emit, Trace.emits, Trace.call]

lemma simpleScan_iters (cfg : LoopCfg) (st : LoopSt) (tr : Trace) (cnt : Nat)
    (g : String) (cs : List Cite) :
    ((simpleScan cfg st tr cnt g cs).2.1).iters = tr.iters := by
  unfold simpleScan
  dsimp only
  split <;> (try split) <;> simp [Trace.emit, Trace.emits, Trace.call]

lemma simpleStep_iters (env : Env) (sig : Sig) (cfg : LoopCfg) (st : LoopSt)
    (tr : Trace) (cnt : Nat) :
    ((simpleStep env sig cfg st tr cnt).2.1).iters = tr.iters := by
  unfold simpleStep
  dsimp only
  split <;> (try split) <;> (try split) <;> (try split) <;>
    simp [simpleScan_iters, Trace.emit, Trace.emits, Trace.call]

lemma iterBody_iters (env : Env) (sig : Sig) (cfg : LoopCfg) (st : LoopSt)
    (tr : Trace) (cnt : Nat) :
    ((iterBody env sig cfg st tr cnt).2.1).iters = tr.iters := by
  cases h : st.action <;>
    simp [iterBody, h, searchStep_iters, thinkStep_iters, imageStep_iters,
      canvasStep_iters, projectStep_iters, studyStep_iters, simpleStep_iters]

/-- Each executed iteration consumes one unit of fuel, so the final
iteration count is bounded by the initial count plus the fuel. -/
lemma runLoop_iters (env : Env) (sig : Sig) (cfg : LoopCfg) :
    ∀ fuel st tr cnt, ((runLoop env sig cfg fuel st tr cnt).2.1).iters ≤ tr.iters + fuel
  | 0, st, tr, cnt => by simp [runLoop]
  | fuel + 1, st, tr, cnt => by
    unfold runLoop
    by_cases hs : sig cnt = true
    · simp [hs]
    · rw [if_neg hs]
      have hb : ((iterBody env sig cfg st { tr with iters := tr.iters + 1 } (cnt + 1)).2.1).iters
          = tr.iters + 1 := by
        simpa using iterBody_iters env sig cfg st { tr with iters := tr.iters + 1 } (cnt + 1)
      dsimp only
      split
      · dsimp only
        omega
      · dsimp only
        omega
      · rename_i st' heq
        have hrec := runLoop_iters env sig cfg fuel st'
          ((iterBody env sig cfg st { tr with iters := tr.iters + 1 } (cnt + 1)).2.1)
          ((iterBody env sig cfg st { tr with iters := tr.iters + 1 } (cnt + 1)).2.2)
        omega

lemma preLoop_iters (env : Env) (inp : AgentInput) : ((preLoop env inp).2.2).iters = 0 := by
  unfold preLoop
  dsimp only
  split_ifs <;> simp [Trace.emit, Trace.initial, apply_ite Trace.iters]

/-- C4: the re-routing loop executes at most `MAX_LOOPS = 6` iterations
for *every* environment, signal and input; and a model that re-emits a
search directive on every pass is cut off after exactly 6 iterations, the
invocation terminating normally with the accumulated text (three SIMPLE
passes' worth of tag text), not an error. -/
theorem C4_loop_bound :
    (∀ (env : Env) (sig : Sig) (inp : AgentInput),
      ((runAutonomousAgent env sig inp).2.1).iters ≤ 6) ∧
    (runAutonomousAgent spamEnv sigOff baseInput).2.1.iters = 6 ∧
    (runAutonomousAgent spamEnv sigOff baseInput).1 =
      .ok ⟨[⟨"P", "C", "ai",
        "<SEARCH>cats</SEARCH><SEARCH>cats</SEARCH><SEARCH>cats</SEARCH>",
        none, none⟩]⟩ := by
  refine ⟨?_, by rfl, by rfl⟩
  intro env sig inp
  unfold runAutonomousAgent
  by_cases hi : inp.thinkingMode = "instant"
  · simp only [hi, if_true, ite_true]
    unfold runInstant
    dsimp only
    split <;> simp [Trace.call, Trace.emits, Trace.initial]
  · rw [if_neg hi]
    have hb := runLoop_iters env sig (preLoop env inp).1 MAX_LOOPS
      (preLoop env inp).2.1 (preLoop env inp).2.2 0
    rw [preLoop_iters] at hb
    dsimp only
    split <;> (try split) <;> simpa [MAX_LOOPS] using hb

/-! ### C1 — exactly one outbound Turn -/

lemma searchStep_ret_len (env : Env) (sig : Sig) (st : LoopSt) (tr : Trace) (cnt : Nat)
    (r : AgentResult) :
    (searchStep env sig st tr cnt).1 = .ret r → r.messages.length = 1 := by
  unfold searchStep
  dsimp only
  split <;> intro h <;> simp at h

lemma thinkStep_ret_len (env : Env) (sig : Sig) (cfg : LoopCfg) (st : LoopSt)
    (tr : Trace) (cnt : Nat) (r : AgentResult) :
    (thinkStep env sig cfg st tr cnt).1 = .ret r → r.messages.length = 1 := by
  unfold thinkStep
  dsimp only
  split <;> (try split) <;> intro h <;>
    first
      | (injection h with h2; subst h2; simp)
      | simp at h

lemma imageStep_ret_len (env : Env) (cfg : LoopCfg) (st : LoopSt) (tr : Trace) (cnt : Nat)
    (r : AgentResult) :
    (imageStep env cfg st tr cnt).1 = .ret r → r.messages.length = 1 := by
  unfold imageStep
  dsimp only
  split <;> (try split) <;> intro h <;> (injection h with h2; subst h2; simp)

lemma canvasStep_ret_len (env : Env) (cfg : LoopCfg) (st : LoopSt) (tr : Trace) (cnt : Nat)
    (r : AgentResult) :
    (canvasStep env cfg st tr cnt).1 = .ret r → r.messages.length = 1 := by
  unfold canvasStep
  dsimp only
  split <;> intro h <;>
    first
      | (injection h with h2; subst h2; simp)
      | simp at h

lemma projectStep_ret_len (env : Env) (cfg : LoopCfg) (st : LoopSt) (tr : Trace) (cnt : Nat)
    (r : AgentResult) :
    (projectStep env cfg st tr cnt).1 = .ret r → r.messages.length = 1 := by
  unfold projectStep
  dsimp only
  split <;> (try split) <;> intro h <;>
    first
      | (injection h with h2; subst h2; simp)
      | simp at h

lemma studyStep_ret_len (env : Env) (sig : Sig) (cfg : LoopCfg) (st : LoopSt)
    (tr : Trace) (cnt : Nat) (r : AgentResult) :
    (studyStep env sig cfg st tr cnt).1 = .ret r → r.messages.length = 1 := by
  unfold studyStep
  dsimp only
  split <;> (try split) <;> intro h <;>
    first
      | (injection h with h2; subst h2; simp)
      | simp at h

lemma simpleScan_ret_len (cfg : LoopCfg) (st : LoopSt) (tr : Trace) (cnt : Nat)
    (g : String) (cs : List Cite) (r : AgentResult) :
    (simpleScan cfg st tr cnt g cs).1 = .ret r → r.messages.length = 1 := by
  unfold simpleScan
  dsimp only
  split <;> (try split) <;> intro h <;>
    first
      | (injection h with h2; subst h2; simp)
      | simp at h

lemma simpleStep_ret_len (env : Env) (sig : Sig) (cfg : LoopCfg) (st : LoopSt)
    (tr : Trace) (cnt : Nat) (r : AgentResult) :
    (simpleStep env sig cfg st tr cnt).1 = .ret r → r.messages.length = 1 := by
  unfold simpleStep
  dsimp only
  split <;> (try split) <;> (try split) <;> (try split) <;> intro h <;>
    first
      | exact simpleScan_ret_len _ _ _ _ _ _ _ h
      | simp at h

lemma iterBody_ret_len (env : Env) (sig : Sig) (cfg : LoopCfg) (st : LoopSt)
    (tr : Trace) (cnt : Nat) (r : AgentResult) :
    (iterBody env sig cfg st tr cnt).1 = .ret r → r.messages.length = 1 := by
  cases h : st.action <;> simp only [iterBody, h] <;>
    first
      | exact searchStep_ret_len _ _ _ _ _ _
      | exact thinkStep_ret_len _ _ _ _ _ _ _
      | exact imageStep_ret_len _ _ _ _ _ _
      | exact canvasStep_ret_len _ _ _ _ _ _
      | exact projectStep_ret_len _ _ _ _ _ _
      | exact studyStep_ret_len _ _ _ _ _ _ _
      | exact simpleStep_ret_len _ _ _ _ _ _ _

/-- Every normal loop exit carries exactly one message: the in-loop
`return` sites, the abort break and the fuel-exhaustion return all build
one-element `messages` arrays. -/
lemma runLoop_finished_len (env : Env) (sig : Sig) (cfg : LoopCfg) :
    ∀ fuel st tr cnt r, (runLoop env sig cfg fuel st tr cnt).1 = .finished r →
      r.messages.length = 1
  | 0, st, tr, cnt, r => by
    intro h
    unfold runLoop at h
    injection h with h2
    subst h2
    simp
  | fuel + 1, st, tr, cnt, r => by
    unfold runLoop
    by_cases hs : sig cnt = true
    · rw [if_pos hs]
      intro h
      injection h with h2
      subst h2
      simp
    · rw [if_neg hs]
      dsimp only
      split
      · rename_i r0 heq
        intro h
        injection h with h2
        subst h2
        exact iterBody_ret_len env sig cfg st _ _ _ heq
      · intro h
        simp at h
      · rename_i st' heq
        exact runLoop_finished_len env sig cfg fuel st' _ _ r

/-- C1 counterexample: in instant mode with a failing free provider, the
invocation *rejects* with `"Instant mode service unavailable."` — no Turn
is returned and the error is not converted to message text, contradicting
"never raises ... for every thinkingMode, including 'instant'". -/
theorem C1_one_turn_counterexample :
    (runAutonomousAgent { baseEnv with free := .error ⟨"Error", "boom", none⟩ } sigOff
        { baseInput with thinkingMode := "instant" }).1 =
      .error ⟨"Error", "Instant mode service unavailable.", none⟩ := by
  rfl

/-- C1 (amended): for every thinkingMode *other than* `'instant'`, one
invocation returns (never raises) exactly one outbound Turn — uncaught
errors are converted to message text by the single catch boundary; in
instant mode the same holds when the free provider succeeds, while a free
provider failure is re-thrown to the caller as `"Instant mode service
unavailable."`. -/
theorem C1_one_turn_amended (env : Env) (sig : Sig) (inp : AgentInput) :
    (inp.thinkingMode ≠ "instant" →
      ∃ r, (runAutonomousAgent env sig inp).1 = .ok r ∧ r.messages.length = 1) ∧
    (∀ t, inp.thinkingMode = "instant" → env.free = .ok t →
      (runAutonomousAgent env sig inp).1 =
        .ok ⟨[⟨inp.projectId, inp.chatId, "ai", t, none, none⟩]⟩) := by
  constructor
  · intro hi
    unfold runAutonomousAgent
    rw [if_neg hi]
    dsimp only
    split
    · rename_i res heq
      exact ⟨res, rfl, runLoop_finished_len env sig _ _ _ _ _ res heq⟩
    · rename_i e ft heq
      split <;> exact ⟨_, rfl, by simp⟩
  · intro t hi hfree
    unfold runAutonomousAgent
    rw [if_pos hi]
    unfold runInstant
    rw [hfree]

/-- Witness for `C1_one_turn_amended`: a plain fast-mode run returns one
Turn, and an instant-mode run with a succeeding free provider returns its
text as the single Turn. -/
theorem C1_one_turn_amended_witness :
    (∃ r, (runAutonomousAgent baseEnv sigOff baseInput).1 = .ok r ∧
      r.messages.length = 1) ∧
    (runAutonomousAgent baseEnv sigOff { baseInput with thinkingMode := "instant" }).1 =
      .ok ⟨[⟨"P", "C", "ai", "freetext", none, none⟩]⟩ := by
  constructor
  · exact (C1_one_turn_amended baseEnv sigOff baseInput).1 (by decide)
  · exact (C1_one_turn_amended baseEnv sigOff
      { baseInput with thinkingMode := "instant" }).2 "freetext" rfl rfl

/-! ### C2 — the relay fallback -/

/-- C2: evaluating the orchestrator at the claim's trigger input.  The
spec'd fallback does *not* happen: because `streamOpenRouter` is an async
generator, creating it (the only thing inside the `try` at line 485)
cannot throw, and the 404 "No providers" error is raised only when the
`for await` at line 510 drives the generator — outside the `try` — so the
fallback `catch` (lines 488–504) is dead code.  The error escapes to the
top-level boundary: the turn ends as an error-as-text Turn, no native
(`gemini-2.5-flash`) fallback call is issued, and no notice is emitted. -/
theorem C2_relay_fallback_code_bug :
    (runAutonomousAgent noProvidersEnv sigOff relayInput).1 =
      .ok ⟨[⟨"P", "C", "ai",
        "An error occurred: The model \"openai/gpt-4o\" is currently unavailable via OpenRouter (No providers). Please select a different model.",
        none, none⟩]⟩ ∧
    (runAutonomousAgent noProvidersEnv sigOff relayInput).2.1.calls =
      [.relayFetch "openai/gpt-4o"] ∧
    (runAutonomousAgent noProvidersEnv sigOff relayInput).2.1.emitted = [] := by
  exact ⟨rfl, rfl, rfl⟩

/-! ### C5 — tag scan precedence -/

/-- C5: (1) the directive decision after a SIMPLE stream depends only on
the text generated by the current loop iteration — changing the text
accumulated by earlier iterations changes nothing; (2) when several
directive tags are present the scan acts on exactly one, chosen by the
fixed precedence DEEP_SEARCH > SEARCH > THINK > IMAGE > PROJECT > CANVAS >
STUDY (dispatch order of lines 535–541); (3) the DEEP_SEARCH matcher also
fires on a `<SEARCH>` tag whose payload starts with the word `deep`. -/
theorem C5_tag_precedence :
    (∀ (cfg : LoopCfg) (st : LoopSt) (tr : Trace) (cnt : Nat) (g : String)
        (cs : List Cite) (t' : String),
      scanDecision (simpleScan cfg st tr cnt g cs).1 =
        scanDecision (simpleScan cfg { st with finalText := t' } tr cnt g cs).1) ∧
    (∀ g p : String, ∀ m : RMatch,
      (deepMatch g = some m →
        scanDirectives g p = some ⟨.DEEP_SEARCH, m.payload.getD "", none⟩) ∧
      (deepMatch g = none → jsMatch (tagRE "SEARCH") g = some m →
        scanDirectives g p = some ⟨.SEARCH, m.payload.getD "", none⟩) ∧
      (deepMatch g = none → jsMatch (tagRE "SEARCH") g = none →
        thinkMatch g = some m →
        scanDirectives g p = some ⟨.THINK,
          (match m.payload with
            | some q => if q = "" then p else jsTrim q
            | none => p), none⟩) ∧
      (deepMatch g = none → jsMatch (tagRE "SEARCH") g = none →
        thinkMatch g = none → jsMatch (tagRE "IMAGE") g = some m →
        scanDirectives g p =
          some ⟨.IMAGE, m.payload.getD "", some (m.payload.getD "")⟩) ∧
      (deepMatch g = none → jsMatch (tagRE "SEARCH") g = none →
        thinkMatch g = none → jsMatch (tagRE "IMAGE") g = none →
        jsMatch (tagRE "PROJECT") g = some m →
        scanDirectives g p = some ⟨.PROJECT, m.payload.getD "", none⟩) ∧
      (deepMatch g = none → jsMatch (tagRE "SEARCH") g = none →
        thinkMatch g = none → jsMatch (tagRE "IMAGE") g = none →
        jsMatch (tagRE "PROJECT") g = none → jsMatch (tagRE "CANVAS") g = some m →
        scanDirectives g p = some ⟨.CANVAS, m.payload.getD "", none⟩) ∧
      (deepMatch g = none → jsMatch (tagRE "SEARCH") g = none →
        thinkMatch g = none → jsMatch (tagRE "IMAGE") g = none →
        jsMatch (tagRE "PROJECT") g = none → jsMatch (tagRE "CANVAS") g = none →
        jsMatch (tagRE "STUDY") g = some m →
        scanDirectives g p = some ⟨.STUDY, m.payload.getD "", none⟩) ∧
      (deepMatch g = none → jsMatch (tagRE "SEARCH") g = none →
        thinkMatch g = none → jsMatch (tagRE "IMAGE") g = none →
        jsMatch (tagRE "PROJECT") g = none → jsMatch (tagRE "CANVAS") g = none →
        jsMatch (tagRE "STUDY") g = none → scanDirectives g p = none)) ∧
    deepMatch "<SEARCH>deep cats</SEARCH>" =
      some ⟨"<SEARCH>deep cats</SEARCH>", some "cats"⟩ := by
  refine ⟨?_, ?_, rfl⟩
  · intro cfg st tr cnt g cs t'
    unfold simpleScan
    dsimp only
    cases h : scanDirectives g cfg.prompt <;> simp only [h]
    · split <;> split <;> first
        | rfl
        | (split <;> rfl)
    · rfl
  · intro g p m
    refine ⟨?_, ?_, ?_, ?_, ?_, ?_, ?_, ?_⟩
    · intro h1
      unfold scanDirectives
      dsimp only
      rw [h1]
    · intro h1 h2
      unfold scanDirectives
      dsimp only
      rw [h1, h2]
    · intro h1 h2 h3
      unfold scanDirectives
      dsimp only
      rw [h1, h2, h3]
    · intro h1 h2 h3 h4
      unfold scanDirectives
      dsimp only
      rw [h1, h2, h3, h4]
    · intro h1 h2 h3 h4 h5
      unfold scanDirectives
      dsimp only
      rw [h1, h2, h3, h4, h5]
    · intro h1 h2 h3 h4 h5 h6
      unfold scanDirectives
      dsimp only
      rw [h1, h2, h3, h4, h5, h6]
    · intro h1 h2 h3 h4 h5 h6 h7
      unfold scanDirectives
      dsimp only
      rw [h1, h2, h3, h4, h5, h6, h7]
    · intro h1 h2 h3 h4 h5 h6 h7
      unfold scanDirectives
      dsimp only
      rw [h1, h2, h3, h4, h5, h6, h7]

set_option maxRecDepth 100000 in
/-- Witness for `C5_tag_precedence`: the precedence ladder evaluated on
concrete multi-tag texts. -/
theorem C5_tag_precedence_witness :
    scanDirectives tags7 "orig" = some ⟨.DEEP_SEARCH, "a", none⟩ ∧
    scanDirectives tags6 "orig" = some ⟨.SEARCH, "b", none⟩ ∧
    scanDirectives tags5 "orig" = some ⟨.THINK, "c", none⟩ ∧
    scanDirectives tags4 "orig" = some ⟨.IMAGE, "d", some "d"⟩ ∧
    scanDirectives tags3 "orig" = some ⟨.PROJECT, "e", none⟩ ∧
    scanDirectives tags2 "orig" = some ⟨.CANVAS, "f", none⟩ ∧
    scanDirectives tags1 "orig" = some ⟨.STUDY, "g", none⟩ ∧
    scanDirectives "no tags here" "orig" = none := by
  refine ⟨?_, ?_, ?_, ?_, ?_, ?_, ?_, ?_⟩
  · exact (C5_tag_precedence.2.1 tags7 "orig" ⟨"<DEEP>a</DEEP>", some "a"⟩).1 rfl
  · exact (C5_tag_precedence.2.1 tags6 "orig"
      ⟨"<SEARCH>b</SEARCH>", some "b"⟩).2.1 rfl rfl
  · exact (C5_tag_precedence.2.1 tags5 "orig"
      ⟨"<THINK>c</THINK>", some "c"⟩).2.2.1 rfl rfl rfl
  · exact (C5_tag_precedence.2.1 tags4 "orig"
      ⟨"<IMAGE>d</IMAGE>", some "d"⟩).2.2.2.1 rfl rfl rfl rfl
  · exact (C5_tag_precedence.2.1 tags3 "orig"
      ⟨"<PROJECT>e</PROJECT>", some "e"⟩).2.2.2.2.1 rfl rfl rfl rfl rfl
  · exact (C5_tag_precedence.2.1 tags2 "orig"
      ⟨"<CANVAS>f</CANVAS>", some "f"⟩).2.2.2.2.2.1 rfl rfl rfl rfl rfl rfl
  · exact (C5_tag_precedence.2.1 tags1 "orig"
      ⟨"<STUDY>g</STUDY>", some "g"⟩).2.2.2.2.2.2.1 rfl rfl rfl rfl rfl rfl rfl
  · exact (C5_tag_precedence.2.1 "no tags here" "orig"
      ⟨"", none⟩).2.2.2.2.2.2.2 rfl rfl rfl rfl rfl rfl rfl

/-! ### C6 — the two-step search pipeline -/

lemma trace_emit_calls (t : Trace) (s : String) : (t.emit s).calls = t.calls := rfl

lemma isPrefixOf_self_append (n post : List Char) : n.isPrefixOf (n ++ post) = true := by
  rw [List.isPrefixOf_iff_prefix]
  exact List.prefix_append n post

/-- The substring scan succeeds whenever the needle occurs verbatim. -/
lemma containsSub_go_of (n : List Char) :
    ∀ pre post : List Char, containsSub.go n (pre ++ (n ++ post)) = true
  | [], post => by
    rw [List.nil_append]
    cases hn : n ++ post with
    | nil =>
      obtain ⟨h1, h2⟩ := List.append_eq_nil.mp hn
      subst h1
      subst h2
      rfl
    | cons c cs =>
      show (n.isPrefixOf (c :: cs) || containsSub.go n cs) = true
      rw [← hn, isPrefixOf_self_append]
      rfl
  | c :: pre, post => by
    show (n.isPrefixOf (c :: (pre ++ (n ++ post))) || containsSub.go n (pre ++ (n ++ post)))
      = true
    rw [containsSub_go_of n pre post, Bool.or_true]

lemma containsSub_data (hay needle : String) (a c : List Char)
    (h : hay.data = a ++ (needle.data ++ c)) : containsSub hay needle = true := by
  unfold containsSub
  rw [h]
  exact containsSub_go_of needle.data a c

/-- The synthesis prompt contains `"SEARCH CONTEXT:"` followed by the
research answer, and the bracketed-numeric-citation instruction. -/
lemma synthesisPrompt_contains (q ans : String) :
    containsSub (synthesisPrompt q ans) ("SEARCH CONTEXT:\n" ++ ans) = true ∧
    containsSub (synthesisPrompt q ans) "Cite sources using [1], [2] format" = true := by
  constructor
  · apply containsSub_data _ _ ("USER QUERY: ".data ++ q.data ++ "\n\n".data)
      "\n\nINSTRUCTIONS: Synthesize a comprehensive answer to the user's query based ONLY on the provided search context. Cite sources using [1], [2] format where appropriate.".data
    show (synthesisPrompt q ans).data = _
    simp only [synthesisPrompt, String.data_append, List.append_assoc, List.cons_append,
      List.nil_append]
  · apply containsSub_data _ _
      ("USER QUERY: ".data ++ q.data ++ "\n\nSEARCH CONTEXT:\n".data ++ ans.data ++
        "\n\nINSTRUCTIONS: Synthesize a comprehensive answer to the user's query based ONLY on the provided search context. ".data)
      " where appropriate.".data
    show (synthesisPrompt q ans).data = _
    simp only [synthesisPrompt, String.data_append, List.append_assoc, List.cons_append,
      List.nil_append]

/-- On a successful research call, SEARCH / DEEP_SEARCH always
*continues*, handing the next iteration a SIMPLE synthesis pass whose
prompt is built from the research answer; nonempty sources overwrite
`metadataPayload.groundingMetadata` with hostname-titled web entries, and
the answer is stashed as fallback context. -/
lemma searchStep_eq (env : Env) (sig : Sig) (st : LoopSt) (tr : Trace) (cnt : Nat)
    (r : ResearchOut) (h : env.research tr.calls.length st.prompt = .ok r) :
    (searchStep env sig st tr cnt).1 = .next
      { st with
        action := .SIMPLE
        prompt := synthesisPrompt st.prompt r.answer
        grounding :=
          if r.sources ≠ [] then
            some (r.sources.map (fun u => Cite.web u (hostTitle u)))
          else st.grounding
        fallbackCtx := r.answer } := by
  unfold searchStep
  dsimp only
  rw [trace_emit_calls, h]

lemma searchStep_no_ret (env : Env) (sig : Sig) (st : LoopSt) (tr : Trace) (cnt : Nat)
    (r' : AgentResult) : (searchStep env sig st tr cnt).1 ≠ .ret r' := by
  unfold searchStep
  dsimp only
  split <;> simp

/-- C6: every SEARCH / DEEP_SEARCH action is a retrieve-then-synthesize
pipeline: after the research call it rewrites the state to a SIMPLE pass
whose prompt contains the literal `"SEARCH CONTEXT:"` followed by the
research answer plus the bracketed-numeric citation instruction; it never
returns a Turn directly; and streamed `"<SEARCH>cats</SEARCH>"` text
dispatches the next iteration to action SEARCH with prompt `"cats"`. -/
theorem C6_search_pipeline (env : Env) (sig : Sig) (st : LoopSt) (tr : Trace) (cnt : Nat) :
    (∀ r : ResearchOut, env.research tr.calls.length st.prompt = .ok r →
      (searchStep env sig st tr cnt).1 = .next
        { st with
          action := .SIMPLE
          prompt := synthesisPrompt st.prompt r.answer
          grounding :=
            if r.sources ≠ [] then
              some (r.sources.map (fun u => Cite.web u (hostTitle u)))
            else st.grounding
          fallbackCtx := r.answer } ∧
      containsSub (synthesisPrompt st.prompt r.answer)
        ("SEARCH CONTEXT:\n" ++ r.answer) = true ∧
      containsSub (synthesisPrompt st.prompt r.answer)
        "Cite sources using [1], [2] format" = true) ∧
    (∀ r' : AgentResult, (searchStep env sig st tr cnt).1 ≠ .ret r') ∧
    scanDirectives "<SEARCH>cats</SEARCH>" "orig" = some ⟨.SEARCH, "cats", none⟩ := by
  refine ⟨?_, searchStep_no_ret env sig st tr cnt, by rfl⟩
  intro r h
  exact ⟨searchStep_eq env sig st tr cnt r h, (synthesisPrompt_contains st.prompt r.answer).1,
    (synthesisPrompt_contains st.prompt r.answer).2⟩

/-- Witness for `C6_search_pipeline`: the two-step pipeline on the base
environment at prompt `"cats"`. -/
theorem C6_search_pipeline_witness :
    (searchStep baseEnv sigOff
        ⟨.SEARCH, "cats", "", none, "", "gemini-2.5-flash", none⟩ Trace.initial 0).1 = .next
      ⟨.SIMPLE, synthesisPrompt "cats" "ans-for cats", "", none, "ans-for cats",
        "gemini-2.5-flash", none⟩ ∧
    containsSub (synthesisPrompt "cats" "ans-for cats")
      ("SEARCH CONTEXT:\n" ++ "ans-for cats") = true := by
  have h := (C6_search_pipeline baseEnv sigOff
    ⟨.SEARCH, "cats", "", none, "", "gemini-2.5-flash", none⟩ Trace.initial 0).1
    ⟨"ans-for cats", [], []⟩ rfl
  exact ⟨h.1, h.2.1⟩

/-! ### C7 — cooperative cancellation -/

/-- C7: once a signal read observes `aborted` (with monotonicity carrying
any earlier observation forward), the loop-top check fires before anything
else in the iteration: no further provider call is issued and nothing more
is emitted (the trace is unchanged), and the invocation returns the
partial `finalResponseText` with its metadata as a normal user-stopped
Turn, never an error.  The chunk-read loops likewise consume, forward and
collect nothing once the signal is aborted. -/
theorem C7_cancellation (env : Env) (sig : Sig) (cfg : LoopCfg) (fuel : Nat)
    (st : LoopSt) (tr : Trace) (cnt k : Nat)
    (hmono : SigMono sig) (hk : sig k = true) (hle : k ≤ cnt) :
    (runLoop env sig cfg (fuel + 1) st tr cnt).1 =
      .finished ⟨[mkMsg cfg st.finalText none st.grounding]⟩ ∧
    (runLoop env sig cfg (fuel + 1) st tr cnt).2.1 = tr ∧
    (∀ (collectG : Bool) (chunks : List Chunk),
      (consumeNative sig collectG cnt chunks).text = "" ∧
      (consumeNative sig collectG cnt chunks).emitted = [] ∧
      (consumeNative sig collectG cnt chunks).cites = []) ∧
    (∀ (events : List RelayEvent) (endErr : Option JsError),
      (consumeRelay sig cnt events endErr).1 = "" ∧
      (consumeRelay sig cnt events endErr).2.1 = []) := by
  have hcnt : sig cnt = true := hmono k cnt hle hk
  refine ⟨?_, ?_, ?_, ?_⟩
  · unfold runLoop
    rw [if_pos hcnt]
  · unfold runLoop
    rw [if_pos hcnt]
  · intro collectG chunks
    cases chunks <;> simp [consumeNative, hcnt]
  · intro events endErr
    cases events with
    | nil =>
      cases endErr with
      | none => exact ⟨rfl, rfl⟩
      | some e => by_cases he : e.name = "AbortError" <;> simp [consumeRelay, he]
    | cons ev rest => simp [consumeRelay, hcnt]

/-- Witness for `C7_cancellation`: with the signal aborted from the first
read, the whole loop returns the empty partial text as a normal Turn and
the trace stays empty — zero provider calls. -/
theorem C7_cancellation_witness :
    (runLoop baseEnv sigOn (preLoop baseEnv baseInput).1 6
        (preLoop baseEnv baseInput).2.1 Trace.initial 0).1 =
      .finished ⟨[⟨"P", "C", "ai", "", none, none⟩]⟩ ∧
    (runLoop baseEnv sigOn (preLoop baseEnv baseInput).1 6
        (preLoop baseEnv baseInput).2.1 Trace.initial 0).2.1 = Trace.initial := by
  have h := C7_cancellation baseEnv sigOn (preLoop baseEnv baseInput).1 5
    (preLoop baseEnv baseInput).2.1 Trace.initial 0 0
    (fun _ _ _ _ => rfl) rfl (Nat.le_refl 0)
  exact ⟨h.1, h.2.1⟩

/-! ### C8 — the bare-THINK fallback prompt -/

set_option maxRecDepth 100000 in
/-- C8 counterexample: with a YouTube link in the user prompt, the bare
`<THINK>` fallback routes to THINK with the *rewritten* video query — the
third provider call's task prompt is `ytRewritten` — which differs from
the original user prompt, contradicting "uses the original user prompt as
the new prompt". -/
theorem C8_think_fallback_counterexample :
    (runAutonomousAgent thinkSpamEnv sigOff ytInput).2.1.calls =
      [.research ytRewritten,
        .native "gemini-2.5-flash"
          (synthesisPrompt ytRewritten ("ans-for " ++ ytRewritten)),
        .native "gemini-2.5-flash" ytRewritten] ∧
    ytRewritten ≠ ytInput.prompt := by
  exact ⟨rfl, by decide⟩

/-- C8 (amended): an iteration text holding a bare unterminated `<THINK>`
with no extractable payload routes to THINK using the orchestrator's
`prompt` variable — the value fixed before the loop, which equals the
original user prompt exactly when no YouTube rewrite fired — and never the
partial streamed text; the loop configuration hands the scanner that same
pre-loop prompt. -/
theorem C8_think_fallback_amended (g p : String) (m : RMatch) (env : Env)
    (inp : AgentInput) :
    (deepMatch g = none → jsMatch (tagRE "SEARCH") g = none →
      thinkMatch g = some m → m.payload = none →
      scanDirectives g p = some ⟨.THINK, p, none⟩) ∧
    (jsMatch youtubeShortsRE inp.prompt = none → jsMatch youtubeRE inp.prompt = none →
      (preLoop env inp).1.prompt = inp.prompt) ∧
    (preLoop env inp).1.prompt = (preLoop env inp).2.1.prompt := by
  refine ⟨?_, ?_, rfl⟩
  · intro h1 h2 h3 h4
    unfold scanDirectives
    dsimp only
    rw [h1, h2, h3]
    dsimp only
    rw [h4]
  · intro hs hm
    unfold preLoop
    dsimp only
    rw [hs, hm]

set_option maxRecDepth 100000 in
/-- Witness for `C8_think_fallback_amended`: a bare `<THINK>` dispatches
to THINK with the prompt argument, and without a YouTube link the pre-loop
prompt is the original user prompt. -/
theorem C8_think_fallback_amended_witness :
    scanDirectives "<THINK>" "orig" = some ⟨.THINK, "orig", none⟩ ∧
    (preLoop baseEnv baseInput).1.prompt = "hi there" := by
  constructor
  · exact (C8_think_fallback_amended "<THINK>" "orig" ⟨"<THINK>", none⟩
      baseEnv baseInput).1 rfl rfl rfl rfl
  · exact (C8_think_fallback_amended "<THINK>" "orig" ⟨"<THINK>", none⟩
      baseEnv baseInput).2.1 rfl rfl

/-! ### C9 — metadata accumulation -/

set_option maxRecDepth 100000 in
/-- C9 counterexample: the SIMPLE iteration pushes grounding chunk 7 into
the metadata map, but the following SEARCH iteration *assigns*
`groundingMetadata` (line 306), so the final Turn carries only the web
citation — the chunk gathered earlier was replaced, not merged. -/
theorem C9_metadata_counterexample :
    (runAutonomousAgent metaEnv sigOff baseInput).1 =
      .ok ⟨[⟨"P", "C", "ai", "x<SEARCH>q</SEARCH>done", none,
        some [Cite.web "https://www.example.org/page" "example.org"]⟩]⟩ ∧
    Cite.chunk 7 ∉ [Cite.web "https://www.example.org/page" "example.org"] := by
  exact ⟨rfl, by decide⟩

lemma simpleScan_grounding_next (cfg : LoopCfg) (st : LoopSt) (tr : Trace) (cnt : Nat)
    (g : String) (cs : List Cite) (st' : LoopSt) (hcs : cs ≠ [])
    (h : (simpleScan cfg st tr cnt g cs).1 = .next st') :
    st'.grounding = some (st.grounding.getD [] ++ cs) := by
  unfold simpleScan at h
  dsimp only at h
  cases hscan : scanDirectives g cfg.prompt with
  | none =>
    rw [hscan] at h
    dsimp only at h
    split at h <;> simp at h
  | some r =>
    rw [hscan] at h
    dsimp only at h
    injection h with h2
    subst h2
    simp [hcs]

lemma simpleScan_grounding_ret (cfg : LoopCfg) (st : LoopSt) (tr : Trace) (cnt : Nat)
    (g : String) (cs : List Cite) (r : AgentResult) (hcs : cs ≠ [])
    (h : (simpleScan cfg st tr cnt g cs).1 = .ret r) :
    ∃ t, r.messages = [mkMsg cfg t none (some (st.grounding.getD [] ++ cs))] := by
  unfold simpleScan at h
  dsimp only at h
  cases hscan : scanDirectives g cfg.prompt with
  | none =>
    rw [hscan] at h
    dsimp only at h
    split at h
    · injection h with h2
      subst h2
      exact ⟨st.fallbackCtx, by simp [hcs]⟩
    · injection h with h2
      subst h2
      exact ⟨st.finalText ++ g, by simp [hcs]⟩
  | some d =>
    rw [hscan] at h
    dsimp only at h
    simp at h

/-- C9 (amended): the metadata map is spread into every terminal Turn,
and a SIMPLE iteration that collected grounding chunks *appends* them to
the accumulated list — but a SEARCH / DEEP_SEARCH iteration whose research
result carries sources *overwrites* the list with the new web citations,
regardless of what was gathered before. -/
theorem C9_metadata_amended (cfg : LoopCfg) (st : LoopSt) (tr : Trace) (cnt : Nat) :
    (∀ (g : String) (cs : List Cite) (st' : LoopSt), cs ≠ [] →
      (simpleScan cfg st tr cnt g cs).1 = .next st' →
      st'.grounding = some (st.grounding.getD [] ++ cs)) ∧
    (∀ (g : String) (cs : List Cite) (r : AgentResult), cs ≠ [] →
      (simpleScan cfg st tr cnt g cs).1 = .ret r →
      ∃ t, r.messages = [mkMsg cfg t none (some (st.grounding.getD [] ++ cs))]) ∧
    (∀ (env : Env) (sig : Sig) (r : ResearchOut) (st' : LoopSt),
      env.research tr.calls.length st.prompt = .ok r → r.sources ≠ [] →
      (searchStep env sig st tr cnt).1 = .next st' →
      st'.grounding = some (r.sources.map (fun u => Cite.web u (hostTitle u)))) ∧
    (∀ (env : Env) (sig : Sig),
      (runLoop env sig cfg 0 st tr cnt).1 =
        .finished ⟨[mkMsg cfg st.finalText none st.grounding]⟩) := by
  refine ⟨?_, ?_, ?_, fun _ _ => rfl⟩
  · intro g cs st' hcs h
    exact simpleScan_grounding_next cfg st tr cnt g cs st' hcs h
  · intro g cs r hcs h
    exact simpleScan_grounding_ret cfg st tr cnt g cs r hcs h
  · intro env sig r st' hres hsrc h
    rw [searchStep_eq env sig st tr cnt r hres] at h
    injection h with h2
    subst h2
    simp [hsrc]

set_option maxRecDepth 100000 in
/-- Witness for `C9_metadata_amended`: a SIMPLE pass appends chunk 7 to an
empty map, and a SEARCH pass installs the web citation list. -/
theorem C9_metadata_amended_witness :
    (∃ st', (simpleScan (preLoop baseEnv baseInput).1 (preLoop baseEnv baseInput).2.1
        Trace.initial 0 "x<SEARCH>q</SEARCH>" [Cite.chunk 7]).1 = .next st' ∧
      st'.grounding = some [Cite.chunk 7]) ∧
    (∃ st', (searchStep metaEnv sigOff
        { (preLoop baseEnv baseInput).2.1 with action := .SEARCH, prompt := "q" }
        Trace.initial 0).1 = .next st' ∧
      st'.grounding = some [Cite.web "https://www.example.org/page" "example.org"]) := by
  constructor
  · refine ⟨_, rfl, ?_⟩
    exact (C9_metadata_amended (preLoop baseEnv baseInput).1
      (preLoop baseEnv baseInput).2.1 Trace.initial 0).1
      "x<SEARCH>q</SEARCH>" [Cite.chunk 7] _ (by decide) rfl
  · refine ⟨_, rfl, ?_⟩
    exact (C9_metadata_amended (preLoop baseEnv baseInput).1
      { (preLoop baseEnv baseInput).2.1 with action := .SEARCH, prompt := "q" }
      Trace.initial 0).2.2.1 metaEnv sigOff ⟨"ans", ["https://www.example.org/page"], []⟩
      _ rfl (by decide) rfl

/-! ### C10 — the YouTube routing override -/

/-- C10: whenever the prompt matches the Shorts pattern (checked first) or
the main YouTube pattern, the initial action is forced to SEARCH with
empty parameters, and the loop's starting prompt is rewritten to the
video-details query — for *every* environment, i.e. regardless of the
classifier's decision; concretely, even with a classifier that always says
CANVAS, the run's first provider call is the research call on the
rewritten query. -/
theorem C10_youtube_override (env : Env) (inp : AgentInput) :
    (∀ m : RMatch, jsMatch youtubeShortsRE inp.prompt = some m →
      (preLoop env inp).2.1.action = .SEARCH ∧
      (preLoop env inp).2.1.imageParams = none ∧
      (preLoop env inp).2.1.prompt = youtubePrompt "Short" (m.payload.getD "") m.full) ∧
    (∀ m : RMatch, jsMatch youtubeShortsRE inp.prompt = none →
      jsMatch youtubeRE inp.prompt = some m →
      (preLoop env inp).2.1.action = .SEARCH ∧
      (preLoop env inp).2.1.imageParams = none ∧
      (preLoop env inp).2.1.prompt = youtubePrompt "Video" (m.payload.getD "") m.full) ∧
    (runAutonomousAgent canvasRouteEnv sigOff ytInput).2.1.calls.head? =
      some (.research ytRewritten) := by
  refine ⟨?_, ?_, by rfl⟩
  · intro m hs
    unfold preLoop
    dsimp only
    rw [hs]
    exact ⟨rfl, rfl, rfl⟩
  · intro m hs hm
    unfold preLoop
    dsimp only
    rw [hs, hm]
    exact ⟨rfl, rfl, rfl⟩

set_option maxRecDepth 100000 in
/-- Witness for `C10_youtube_override`: a Shorts link and a `youtu.be`
link, each forcing SEARCH with the rewritten query. -/
theorem C10_youtube_override_witness :
    (preLoop baseEnv { baseInput with prompt := "youtube.com/shorts/abcdefghijk" }).2.1.action
      = .SEARCH ∧
    (preLoop baseEnv { baseInput with prompt := "youtube.com/shorts/abcdefghijk" }).2.1.prompt
      = youtubePrompt "Short" "abcdefghijk" "youtube.com/shorts/abcdefghijk" ∧
    (preLoop baseEnv ytInput).2.1.action = .SEARCH ∧
    (preLoop baseEnv ytInput).2.1.prompt =
      youtubePrompt "Video" "dQw4w9WgXcQ" "youtu.be/dQw4w9WgXcQ" := by
  have hshort := (C10_youtube_override baseEnv
    { baseInput with prompt := "youtube.com/shorts/abcdefghijk" }).1
    ⟨"youtube.com/shorts/abcdefghijk", some "abcdefghijk"⟩ rfl
  have hvid := (C10_youtube_override baseEnv ytInput).2.1
    ⟨"youtu.be/dQw4w9WgXcQ", some "dQw4w9WgXcQ"⟩ rfl rfl
  exact ⟨hshort.1, hshort.2.2, hvid.1, hvid.2.2⟩

end Bubble
